import Mathlib

/-!
# GPU power monitoring: discovery and energy-counter sampling

A shallow embedding of `monitoring_suite/gpu_power.hpp` (class `GPUPowerMonitor`) and
of the discovery and sampling code of the console, `monitoring_suite/utils/device_enum.cpp`.

Conventions of the embedding:

* `uint64_t` values are natural numbers below `2 ^ 64`; every arithmetic step of
  the source on them is followed by an explicit reduction modulo `2 ^ 64`.
* `double` power values are modelled by exact rationals: `power` is the quotient
  before floating-point rounding, and the `-1` sentinel is the rational `-1`.
* The Level Zero Sysman entry points (`zesInit`, `zesDriverGet`, ...) are not part
  of the repository. They are a parameter: a record of functions giving, for every
  handle, the result code and the out-parameters the call produces. Within one
  discovery run and within one sampling pass the answer of a call is a function of
  its arguments; different passes take different read functions.
* Handles are natural numbers, `0` playing the role of the null handle a
  value-initialised `std::vector` of handles holds.
-/

namespace GpuPower

/-! ## Interface types -/

/-- Result code of a Level Zero call (`ze_result_t`). -/
abbrev ze_result_t := Nat

/-- The success code `ZE_RESULT_SUCCESS` of the Level Zero headers. -/
def ZE_RESULT_SUCCESS : ze_result_t := 0

/-- Driver handle (`zes_driver_handle_t`). -/
abbrev zes_driver_handle_t := Nat

/-- Device handle (`zes_device_handle_t`). -/
abbrev zes_device_handle_t := Nat

/-- Power-domain handle (`zes_pwr_handle_t`). -/
abbrev zes_pwr_handle_t := Nat

/-- Number of values of a `uint64_t`. -/
def UINT64_SIZE : Nat := 2 ^ 64

/-- The constant `UINT64_MAX` of `<cstdint>`. -/
def UINT64_MAX : Nat := 2 ^ 64 - 1

/-- Addition of two `uint64_t` values. -/
def add64 (a b : Nat) : Nat := (a + b) % UINT64_SIZE

/-- Subtraction of two `uint64_t` values. -/
def sub64 (a b : Nat) : Nat := (a + (UINT64_SIZE - b % UINT64_SIZE)) % UINT64_SIZE

/-- Energy counter sample (`zes_power_energy_counter_t`): two `uint64_t` fields. -/
structure zes_power_energy_counter_t where
  energy : Nat
  timestamp : Nat
  deriving DecidableEq, Repr

/-- Both fields of a sample are representable in 64 bits. -/
def zes_power_energy_counter_t.valid (c : zes_power_energy_counter_t) : Prop :=
  c.energy < UINT64_SIZE ∧ c.timestamp < UINT64_SIZE

instance (c : zes_power_energy_counter_t) : Decidable c.valid := by
  unfold zes_power_energy_counter_t.valid; infer_instance

/-! ## Data model of `gpu_power.hpp` -/

/-- Output record `GPUPowerData`. -/
structure GPUPowerData where
  gpu_name : String
  uuid : String
  card_power : ℚ
  tile0_power : ℚ
  tile1_power : ℚ
  deriving DecidableEq

/-- Record `GPUPowerMonitor::PowerDomainData`. -/
structure PowerDomainData where
  handle : zes_pwr_handle_t
  isCardLevel : Bool
  subdeviceId : Int
  lastCounter : zes_power_energy_counter_t
  deriving DecidableEq, Repr

/-- Record `GPUPowerMonitor::DeviceData`. -/
structure DeviceData where
  device : zes_device_handle_t
  name : String
  uuid : String
  powerDomains : List PowerDomainData
  deriving DecidableEq, Repr

/-- State of a `GPUPowerMonitor` object. -/
structure GPUPowerMonitor where
  devices : List DeviceData
  initialized : Bool
  deriving DecidableEq, Repr

/-! ## The hardware interface consumed by discovery -/

/-- Device properties (`zes_device_properties_t`): the fields the code reads,
`modelName` and the bytes `core.uuid.id`. -/
structure zes_device_properties_t where
  modelName : String
  uuid : List Nat

/-- Power-domain properties (`zes_power_properties_t`): the fields the code reads,
`onSubdevice` and the `uint32_t` field `subdeviceId`. -/
structure zes_power_properties_t where
  onSubdevice : Bool
  subdeviceId : Nat

/-- The Sysman entry points used by the code. An enumeration entry point is called
twice by the source, once with a null buffer to obtain the count and once with a
buffer of that many handles; the two calls are separate fields, the second taking
the count passed in. -/
structure Sysman where
  zesInit : ze_result_t
  zesDriverGetCount : ze_result_t × Nat
  zesDriverGet : Nat → ze_result_t × List zes_driver_handle_t
  zesDeviceGetCount : zes_driver_handle_t → ze_result_t × Nat
  zesDeviceGet : zes_driver_handle_t → Nat → ze_result_t × List zes_device_handle_t
  zesDeviceGetProperties : zes_device_handle_t → ze_result_t × zes_device_properties_t
  zesDeviceEnumPowerDomainsCount : zes_device_handle_t → ze_result_t × Nat
  zesDeviceEnumPowerDomains : zes_device_handle_t → Nat → ze_result_t × List zes_pwr_handle_t
  zesPowerGetProperties : zes_pwr_handle_t → ze_result_t × zes_power_properties_t
  zesPowerGetEnergyCounter : zes_pwr_handle_t → ze_result_t × zes_power_energy_counter_t

/-- Contents of a `std::vector` of `count` handles, value-initialised to null, after
a call wrote the handles `written` to its buffer. -/
def filledVector (count : Nat) (written : List Nat) : List Nat :=
  (written ++ List.replicate count 0).take count

/-- Modelled from the spec: the Level Zero constant `ZE_MAX_UUID_SIZE`, absent from
the sources; the spec renders a uuid as 16 octets. -/
def ZE_MAX_UUID_SIZE : Nat := 16

/-- One lowercase hexadecimal digit. -/
def hexDigit (d : Nat) : Char := "0123456789abcdef".toList.getD d '0'

/-- The two characters `snprintf(hex, sizeof(hex), "%02x", b)` leaves in `hex` for a
`uint8_t` value `b`. -/
def hex02 (b : Nat) : String :=
  String.mk [hexDigit (b % 256 / 16), hexDigit (b % 256 % 16)]

/-- The uuid formatting loop (gpu_power.hpp 90-95), starting from the empty
`device.uuid`. -/
def formatUuid (id : List Nat) : String :=
  (List.range ZE_MAX_UUID_SIZE).foldl
    (fun uuid i =>
      let uuid1 := uuid ++ hex02 (id.getD i 0)
      if i < ZE_MAX_UUID_SIZE - 1 then uuid1 ++ ":" else uuid1)
    ""

/-- Conversion of a `uint32_t` to `int` (the assignment to `domain.subdeviceId`). -/
def toInt32 (n : Nat) : Int :=
  if n % 2 ^ 32 < 2 ^ 31 then ((n % 2 ^ 32 : Nat) : Int)
  else ((n % 2 ^ 32 : Nat) : Int) - 2 ^ 32

/-! ## Discovery (`initializeDevices`, `initialize`) -/

/-- Body of the power-handle loop (gpu_power.hpp 108-122): the domain pushed, or
`none` when one of the two `continue`s is taken. -/
def initDomain (zes : Sysman) (powerHandle : zes_pwr_handle_t) : Option PowerDomainData :=
  let pp := zes.zesPowerGetProperties powerHandle
  if pp.1 ≠ ZE_RESULT_SUCCESS then none
  else
    let c := zes.zesPowerGetEnergyCounter powerHandle
    if c.1 ≠ ZE_RESULT_SUCCESS then none
    else
      some { handle := powerHandle, isCardLevel := !pp.2.onSubdevice,
             subdeviceId := toInt32 pp.2.subdeviceId, lastCounter := c.2 }

/-- The power-handle loop (gpu_power.hpp 107-123), from an empty
`device.powerDomains`. -/
def initDomains (zes : Sysman) (powerHandles : List zes_pwr_handle_t) : List PowerDomainData :=
  powerHandles.foldl
    (fun powerDomains powerHandle =>
      match initDomain zes powerHandle with
      | some domain => powerDomains ++ [domain]
      | none => powerDomains)
    []

/-- Body of the device-handle loop (gpu_power.hpp 78-125): the device pushed, or
`none` when one of the `continue`s is taken. -/
def initDevice (zes : Sysman) (deviceHandle : zes_device_handle_t) : Option DeviceData :=
  let props := zes.zesDeviceGetProperties deviceHandle
  if props.1 ≠ ZE_RESULT_SUCCESS then none
  else
    let n := zes.zesDeviceEnumPowerDomainsCount deviceHandle
    if n.1 ≠ ZE_RESULT_SUCCESS ∨ n.2 = 0 then none
    else
      let e := zes.zesDeviceEnumPowerDomains deviceHandle n.2
      if e.1 ≠ ZE_RESULT_SUCCESS then none
      else
        some { device := deviceHandle, name := props.2.modelName,
               uuid := formatUuid props.2.uuid,
               powerDomains := initDomains zes (filledVector n.2 e.2) }

/-- The device-handle loop (gpu_power.hpp 77-126) pushing to `devices`. -/
def initDeviceHandles (zes : Sysman) (deviceHandles : List zes_device_handle_t)
    (devices : List DeviceData) : List DeviceData :=
  deviceHandles.foldl
    (fun devs deviceHandle =>
      match initDevice zes deviceHandle with
      | some device => devs ++ [device]
      | none => devs)
    devices

/-- Body of the driver loop (gpu_power.hpp 69-126): `devices` after the driver. -/
def initDriver (zes : Sysman) (driver : zes_driver_handle_t) (devices : List DeviceData) :
    List DeviceData :=
  let c := zes.zesDeviceGetCount driver
  if c.1 ≠ ZE_RESULT_SUCCESS ∨ c.2 = 0 then devices
  else
    let g := zes.zesDeviceGet driver c.2
    if g.1 ≠ ZE_RESULT_SUCCESS then devices
    else initDeviceHandles zes (filledVector c.2 g.2) devices

/-- The method `initializeDevices` (gpu_power.hpp 42-130): the value returned and
the monitor afterwards. -/
def initializeDevices (zes : Sysman) (m : GPUPowerMonitor) : Bool × GPUPowerMonitor :=
  if zes.zesInit ≠ ZE_RESULT_SUCCESS then (false, m)
  else
    let dc := zes.zesDriverGetCount
    if dc.1 ≠ ZE_RESULT_SUCCESS ∨ dc.2 = 0 then (false, m)
    else
      let dg := zes.zesDriverGet dc.2
      if dg.1 ≠ ZE_RESULT_SUCCESS then (false, m)
      else
        let devices :=
          (filledVector dc.2 dg.2).foldl (fun devs driver => initDriver zes driver devs) m.devices
        (!devices.isEmpty, { m with devices := devices })

/-- The constructor `GPUPowerMonitor()` (gpu_power.hpp 133). -/
def GPUPowerMonitor.new : GPUPowerMonitor := { devices := [], initialized := false }

/-- The method `initialize()` (gpu_power.hpp 135-140): the value returned and the
monitor afterwards. -/
def initializeMonitor (zes : Sysman) (m : GPUPowerMonitor) : Bool × GPUPowerMonitor :=
  if !m.initialized then
    let r := initializeDevices zes m
    (r.1, { r.2 with initialized := r.1 })
  else (m.initialized, m)

/-! ## Sampling (`getPowerReadings`) -/

/-- The value of `currentCounter` after the two wraparound statements
(gpu_power.hpp 159-164): each field smaller than the stored one gets `UINT64_MAX`
added in 64-bit arithmetic. -/
def wrapAdjust (last cur : zes_power_energy_counter_t) : zes_power_energy_counter_t :=
  { energy := if cur.energy < last.energy then add64 cur.energy UINT64_MAX else cur.energy
    timestamp :=
      if cur.timestamp < last.timestamp then add64 cur.timestamp UINT64_MAX
      else cur.timestamp }

/-- The local `deltaTime` (gpu_power.hpp 166). -/
def deltaTime (last cur : zes_power_energy_counter_t) : Nat :=
  sub64 (wrapAdjust last cur).timestamp last.timestamp

/-- The local `deltaEnergy` (gpu_power.hpp 167). -/
def deltaEnergy (last cur : zes_power_energy_counter_t) : Nat :=
  sub64 (wrapAdjust last cur).energy last.energy

/-- The local `power` (gpu_power.hpp 170), as an exact quotient. -/
def power (last cur : zes_power_energy_counter_t) : ℚ :=
  (deltaEnergy last cur : ℚ) / (deltaTime last cur : ℚ)

/-- The routing `if`/`else if` chain (gpu_power.hpp 172-178). -/
def routePower (domain : PowerDomainData) (p : ℚ) (data : GPUPowerData) : GPUPowerData :=
  if domain.isCardLevel then { data with card_power := p }
  else if domain.subdeviceId = 0 then { data with tile0_power := p }
  else if domain.subdeviceId = 1 then { data with tile1_power := p }
  else data

/-- The power value a successful read emits: `none` when `deltaTime` is zero, in
which case the division is not evaluated. -/
def emittedPower (last cur : zes_power_energy_counter_t) : Option ℚ :=
  if deltaTime last cur > 0 then some (power last cur) else none

/-- Body of the inner loop of `getPowerReadings` for one domain
(gpu_power.hpp 155-182). `r` is what `zesPowerGetEnergyCounter` answered: the
result code and the sample written to `currentCounter`. -/
def sampleDomain (r : ze_result_t × zes_power_energy_counter_t)
    (domain : PowerDomainData) (data : GPUPowerData) : PowerDomainData × GPUPowerData :=
  if r.1 = ZE_RESULT_SUCCESS then
    let currentCounter := wrapAdjust domain.lastCounter r.2
    let data1 :=
      match emittedPower domain.lastCounter r.2 with
      | some p => routePower domain p data
      | none => data
    ({ domain with lastCounter := currentCounter }, data1)
  else (domain, data)

/-- The inner loop of `getPowerReadings` over the domains of one device
(gpu_power.hpp 154-183). -/
def sampleDomains (read : zes_pwr_handle_t → ze_result_t × zes_power_energy_counter_t) :
    List PowerDomainData → GPUPowerData → List PowerDomainData × GPUPowerData
  | [], data => ([], data)
  | domain :: rest, data =>
    let s := sampleDomain (read domain.handle) domain data
    let t := sampleDomains read rest s.2
    (s.1 :: t.1, t.2)

/-- The fresh `GPUPowerData` of one device (gpu_power.hpp 147-152). -/
def initialData (device : DeviceData) : GPUPowerData :=
  { gpu_name := device.name, uuid := device.uuid,
    card_power := -1, tile0_power := -1, tile1_power := -1 }

/-- Body of the outer loop of `getPowerReadings` for one device
(gpu_power.hpp 146-185): the updated device and the reading pushed. -/
def sampleDevice (read : zes_pwr_handle_t → ze_result_t × zes_power_energy_counter_t)
    (device : DeviceData) : DeviceData × GPUPowerData :=
  let s := sampleDomains read device.powerDomains (initialData device)
  ({ device with powerDomains := s.1 }, s.2)

/-- The method `getPowerReadings` (gpu_power.hpp 142-188): the readings returned and
the monitor after the pass. -/
def getPowerReadings (read : zes_pwr_handle_t → ze_result_t × zes_power_energy_counter_t)
    (m : GPUPowerMonitor) : List GPUPowerData × GPUPowerMonitor :=
  if !m.initialized then ([], m)
  else
    let r := m.devices.map (sampleDevice read)
    (r.map Prod.snd, { m with devices := r.map Prod.fst })

/-! ## The console consumer (`utils/device_enum.cpp`)

The console declares its own `PowerDomainData` and `DeviceData`, field for field the
records of `gpu_power.hpp`; the embedding uses the same two structures for both. -/

/-- The power-handle loop of the console (device_enum.cpp 110-126), pushing to
`device.powerDomains`. -/
def Console.initDomains (zes : Sysman) :
    List zes_pwr_handle_t → List PowerDomainData → List PowerDomainData
  | [], powerDomains => powerDomains
  | powerHandle :: rest, powerDomains =>
    let pp := zes.zesPowerGetProperties powerHandle
    if pp.1 ≠ ZE_RESULT_SUCCESS then Console.initDomains zes rest powerDomains
    else
      let c := zes.zesPowerGetEnergyCounter powerHandle
      if c.1 ≠ ZE_RESULT_SUCCESS then Console.initDomains zes rest powerDomains
      else
        Console.initDomains zes rest
          (powerDomains ++
            [{ handle := powerHandle, isCardLevel := !pp.2.onSubdevice,
               subdeviceId := toInt32 pp.2.subdeviceId, lastCounter := c.2 }])

/-- The device-handle loop of the console (device_enum.cpp 81-129), pushing to
`devices`. -/
def Console.initDeviceHandles (zes : Sysman) :
    List zes_device_handle_t → List DeviceData → List DeviceData
  | [], devices => devices
  | deviceHandle :: rest, devices =>
    let props := zes.zesDeviceGetProperties deviceHandle
    if props.1 ≠ ZE_RESULT_SUCCESS then Console.initDeviceHandles zes rest devices
    else
      let n := zes.zesDeviceEnumPowerDomainsCount deviceHandle
      if n.1 ≠ ZE_RESULT_SUCCESS ∨ n.2 = 0 then Console.initDeviceHandles zes rest devices
      else
        let e := zes.zesDeviceEnumPowerDomains deviceHandle n.2
        if e.1 ≠ ZE_RESULT_SUCCESS then Console.initDeviceHandles zes rest devices
        else
          Console.initDeviceHandles zes rest
            (devices ++
              [{ device := deviceHandle, name := props.2.modelName,
                 uuid := formatUuid props.2.uuid,
                 powerDomains := Console.initDomains zes (filledVector n.2 e.2) [] }])

/-- The driver loop of the console (device_enum.cpp 72-130). -/
def Console.initDrivers (zes : Sysman) :
    List zes_driver_handle_t → List DeviceData → List DeviceData
  | [], devices => devices
  | driver :: rest, devices =>
    let c := zes.zesDeviceGetCount driver
    if c.1 ≠ ZE_RESULT_SUCCESS ∨ c.2 = 0 then Console.initDrivers zes rest devices
    else
      let g := zes.zesDeviceGet driver c.2
      if g.1 ≠ ZE_RESULT_SUCCESS then Console.initDrivers zes rest devices
      else
        Console.initDrivers zes rest
          (Console.initDeviceHandles zes (filledVector c.2 g.2) devices)

/-- The function `initializeDevices` of the console (device_enum.cpp 45-133). -/
def Console.initializeDevices (zes : Sysman) : List DeviceData :=
  if zes.zesInit ≠ ZE_RESULT_SUCCESS then []
  else
    let dc := zes.zesDriverGetCount
    if dc.1 ≠ ZE_RESULT_SUCCESS ∨ dc.2 = 0 then []
    else
      let dg := zes.zesDriverGet dc.2
      if dg.1 ≠ ZE_RESULT_SUCCESS then []
      else Console.initDrivers zes (filledVector dc.2 dg.2) []

/-- The value of `currentCounter` after the wraparound statements of `monitorPower`
(device_enum.cpp 151-156). -/
def Console.currentCounter (last cur : zes_power_energy_counter_t) :
    zes_power_energy_counter_t :=
  let timestamp :=
    if cur.timestamp < last.timestamp then add64 cur.timestamp UINT64_MAX else cur.timestamp
  let energy := if cur.energy < last.energy then add64 cur.energy UINT64_MAX else cur.energy
  { energy := energy, timestamp := timestamp }

/-- The local `deltaTime` of `monitorPower` (device_enum.cpp 158). -/
def Console.deltaTime (last cur : zes_power_energy_counter_t) : Nat :=
  sub64 (Console.currentCounter last cur).timestamp last.timestamp

/-- The local `deltaEnergy` of `monitorPower` (device_enum.cpp 159). -/
def Console.deltaEnergy (last cur : zes_power_energy_counter_t) : Nat :=
  sub64 (Console.currentCounter last cur).energy last.energy

/-- The local `power` of `monitorPower` (device_enum.cpp 163), as an exact
quotient. -/
def Console.power (last cur : zes_power_energy_counter_t) : ℚ :=
  (Console.deltaEnergy last cur : ℚ) / (Console.deltaTime last cur : ℚ)

/-- What `monitorPower` prints for one domain: the label, the power, and the counter
energy it divides by `1e6` for display. -/
structure Console.PowerLine where
  domainType : String
  power : ℚ
  energy : Nat
  deriving DecidableEq

/-- Body of the domain loop of `monitorPower` (device_enum.cpp 147-177): the domain
afterwards and the line printed, if any. -/
def Console.monitorDomain (r : ze_result_t × zes_power_energy_counter_t)
    (domain : PowerDomainData) : PowerDomainData × Option Console.PowerLine :=
  if r.1 = ZE_RESULT_SUCCESS then
    let currentCounter := Console.currentCounter domain.lastCounter r.2
    let line :=
      if Console.deltaTime domain.lastCounter r.2 > 0 then
        some { domainType :=
                 if domain.isCardLevel then "Card Total"
                 else "Tile " ++ toString domain.subdeviceId
               power := Console.power domain.lastCounter r.2
               energy := currentCounter.energy }
      else none
    ({ domain with lastCounter := currentCounter }, line)
  else (domain, none)

/-! ## Vocabulary of the specification

Definitions that follow the words of the specification; the theorems below compare
them with the code above. -/

/-- The device handles the interface enumerates for a driver: the handle vector of
the driver loop, empty when either enumeration call fails or the count is zero. -/
def deviceHandlesOf (zes : Sysman) (driver : zes_driver_handle_t) : List zes_device_handle_t :=
  if (zes.zesDeviceGetCount driver).1 = ZE_RESULT_SUCCESS
      ∧ (zes.zesDeviceGetCount driver).2 ≠ 0
      ∧ (zes.zesDeviceGet driver (zes.zesDeviceGetCount driver).2).1 = ZE_RESULT_SUCCESS then
    filledVector (zes.zesDeviceGetCount driver).2
      (zes.zesDeviceGet driver (zes.zesDeviceGetCount driver).2).2
  else []

/-- All device handles discovery gets to see, in driver order then device order;
empty when subsystem initialisation or driver enumeration fails. -/
def enumeratedDevices (zes : Sysman) : List zes_device_handle_t :=
  if zes.zesInit = ZE_RESULT_SUCCESS
      ∧ zes.zesDriverGetCount.1 = ZE_RESULT_SUCCESS
      ∧ zes.zesDriverGetCount.2 ≠ 0
      ∧ (zes.zesDriverGet zes.zesDriverGetCount.2).1 = ZE_RESULT_SUCCESS then
    (filledVector zes.zesDriverGetCount.2 (zes.zesDriverGet zes.zesDriverGetCount.2).2).flatMap
      (deviceHandlesOf zes)
  else []

/-- The power-domain handles enumerated for a device (the vector `powerHandles`). -/
def powerHandlesOf (zes : Sysman) (deviceHandle : zes_device_handle_t) : List zes_pwr_handle_t :=
  filledVector (zes.zesDeviceEnumPowerDomainsCount deviceHandle).2
    (zes.zesDeviceEnumPowerDomains deviceHandle
      (zes.zesDeviceEnumPowerDomainsCount deviceHandle).2).2

/-- The property read of a device succeeded and its power-domain enumeration
succeeded with a non-zero count. -/
def deviceRetained (zes : Sysman) (deviceHandle : zes_device_handle_t) : Bool :=
  decide ((zes.zesDeviceGetProperties deviceHandle).1 = ZE_RESULT_SUCCESS)
    && decide ((zes.zesDeviceEnumPowerDomainsCount deviceHandle).1 = ZE_RESULT_SUCCESS)
    && decide ((zes.zesDeviceEnumPowerDomainsCount deviceHandle).2 ≠ 0)
    && decide ((zes.zesDeviceEnumPowerDomains deviceHandle
        (zes.zesDeviceEnumPowerDomainsCount deviceHandle).2).1 = ZE_RESULT_SUCCESS)

/-- A power domain passed both its property read and its initial counter read. -/
def domainUsable (zes : Sysman) (powerHandle : zes_pwr_handle_t) : Bool :=
  decide ((zes.zesPowerGetProperties powerHandle).1 = ZE_RESULT_SUCCESS)
    && decide ((zes.zesPowerGetEnergyCounter powerHandle).1 = ZE_RESULT_SUCCESS)

/-- An octet as two lowercase hexadecimal digits, zero padded on the left. -/
def octetHex (b : Nat) : String :=
  String.mk (if (Nat.toDigits 16 b).length < 2 then '0' :: Nat.toDigits 16 b
    else Nat.toDigits 16 b)

/-- Octets rendered in order and joined by a colon. -/
def renderUuid (id : List Nat) : String := ":".intercalate (id.map octetHex)

/-- The subdevice ids of the tile domains of a device, in stored order. -/
def tileIds (device : DeviceData) : List Int :=
  (device.powerDomains.filter (fun d => !d.isCardLevel)).map PowerDomainData.subdeviceId

/-- Number of card-level domains of a device. -/
def cardCount (device : DeviceData) : Nat :=
  (device.powerDomains.filter (fun d => d.isCardLevel)).length

/-- The three power fields of a reading. -/
inductive PowerField where
  | card
  | tile0
  | tile1
  deriving DecidableEq, Repr

/-- The value of a power field of a reading. -/
def GPUPowerData.get (data : GPUPowerData) : PowerField → ℚ
  | .card => data.card_power
  | .tile0 => data.tile0_power
  | .tile1 => data.tile1_power

/-- The field a domain is routed to: `card_power` if card-level, else `tile0_power`
for subdevice 0, else `tile1_power` for subdevice 1, else none. -/
def routeOf (domain : PowerDomainData) : Option PowerField :=
  if domain.isCardLevel then some .card
  else if domain.subdeviceId = 0 then some .tile0
  else if domain.subdeviceId = 1 then some .tile1
  else none

/-! ## Concrete scenarios -/

/-- An interface with one driver (handle 1) enumerating the devices 10, 11, 12, each
with two power domains (handles `2 * h` for the card, `2 * h + 1` for tile 0).
`propsFail` selects the devices whose property read fails, `domainFail` the power
domains whose property read fails. -/
def scenario (propsFail : zes_device_handle_t → Bool) (domainFail : zes_pwr_handle_t → Bool) :
    Sysman :=
  { zesInit := ZE_RESULT_SUCCESS
    zesDriverGetCount := (ZE_RESULT_SUCCESS, 1)
    zesDriverGet := fun _ => (ZE_RESULT_SUCCESS, [1])
    zesDeviceGetCount := fun _ => (ZE_RESULT_SUCCESS, 3)
    zesDeviceGet := fun _ _ => (ZE_RESULT_SUCCESS, [10, 11, 12])
    zesDeviceGetProperties := fun h =>
      (if propsFail h then 1 else ZE_RESULT_SUCCESS, ⟨"gpu", List.range 16⟩)
    zesDeviceEnumPowerDomainsCount := fun _ => (ZE_RESULT_SUCCESS, 2)
    zesDeviceEnumPowerDomains := fun h _ => (ZE_RESULT_SUCCESS, [2 * h, 2 * h + 1])
    zesPowerGetProperties := fun p =>
      (if domainFail p then 1 else ZE_RESULT_SUCCESS, ⟨p % 2 == 1, 0⟩)
    zesPowerGetEnergyCounter := fun _ => (ZE_RESULT_SUCCESS, ⟨1000, 0⟩) }

/-- Every power domain fails its property read. -/
def scenarioNoDomain : Sysman := scenario (fun _ => false) (fun _ => true)

/-- The second of the three devices fails its property read. -/
def scenarioMiddleFails : Sysman := scenario (fun h => h == 11) (fun _ => false)

/-- Subsystem initialisation fails; every later query would succeed. -/
def scenarioInitFails : Sysman := { scenarioMiddleFails with zesInit := 1 }

/-- Every power domain is reported on subdevice 0. -/
def scenarioAllTiles : Sysman :=
  { scenarioMiddleFails with
    zesPowerGetProperties := fun _ => (ZE_RESULT_SUCCESS, ⟨true, 0⟩) }

/-- Every power domain is reported on subdevice `2 ^ 32 - 1`. -/
def scenarioBigSubdevice : Sysman :=
  { scenarioMiddleFails with
    zesPowerGetProperties := fun _ => (ZE_RESULT_SUCCESS, ⟨true, 4294967295⟩) }

/-- The device record discovery builds for device 10 of `scenarioMiddleFails`. -/
def exampleDevice10 : DeviceData :=
  { device := 10, name := "gpu", uuid := "00:01:02:03:04:05:06:07:08:09:0a:0b:0c:0d:0e:0f",
    powerDomains :=
      [{ handle := 20, isCardLevel := true, subdeviceId := 0, lastCounter := ⟨1000, 0⟩ },
       { handle := 21, isCardLevel := false, subdeviceId := 0, lastCounter := ⟨1000, 0⟩ }] }

/-- A card-level domain with stored sample (energy 1000, timestamp 0). -/
def cardDomain : PowerDomainData :=
  { handle := 20, isCardLevel := true, subdeviceId := 0, lastCounter := ⟨1000, 0⟩ }

/-- A tile-0 domain with stored sample (energy 1000, timestamp 0). -/
def tileDomain : PowerDomainData :=
  { handle := 21, isCardLevel := false, subdeviceId := 0, lastCounter := ⟨1000, 0⟩ }

/-- A monitor tracking a card-only device and a tile-only device. -/
def exampleMonitor : GPUPowerMonitor :=
  { devices := [⟨10, "gpu", "", [cardDomain]⟩, ⟨11, "gpu", "", [tileDomain]⟩],
    initialized := true }

/-- A pass in which the read of handle 20 fails and every other read returns
(energy 3000, timestamp 1000). -/
def exampleRead (h : zes_pwr_handle_t) : ze_result_t × zes_power_energy_counter_t :=
  if h = 20 then (1, ⟨0, 0⟩) else (ZE_RESULT_SUCCESS, ⟨3000, 1000⟩)

/-! ## Arithmetic of the 64-bit counters -/

theorem add64_max_of_pos (a : Nat) (h0 : 0 < a) (ha : a < UINT64_SIZE) :
    add64 a UINT64_MAX = a - 1 := by
  unfold add64 UINT64_MAX
  unfold UINT64_SIZE at *
  norm_num at *
  omega

theorem sub64_of_le (a b : Nat) (hba : b ≤ a) (ha : a < UINT64_SIZE) : sub64 a b = a - b := by
  unfold sub64
  unfold UINT64_SIZE at *
  norm_num at *
  omega

theorem sub64_self (a : Nat) : sub64 a a = 0 := by
  unfold sub64 UINT64_SIZE
  norm_num
  omega

/-- Difference of a wrapped counter: the modular computation of the source agrees
with the integer `(cur + UINT64_MAX) - last`. -/
theorem sub64_add64_max (cur last : Nat) (hlt : cur < last) (hl : last < UINT64_SIZE) :
    ((sub64 (add64 cur UINT64_MAX) last : Nat) : Int)
      = ((cur : Int) + (UINT64_MAX : Int)) - (last : Int) := by
  unfold sub64 add64 UINT64_MAX
  unfold UINT64_SIZE at *
  norm_num at *
  omega

theorem power_nonneg (last cur : zes_power_energy_counter_t) : 0 ≤ power last cur := by
  unfold power
  positivity

/-! ## One domain of a sampling pass -/

theorem deltaTime_of_timestamp_eq (last cur : zes_power_energy_counter_t)
    (h : cur.timestamp = last.timestamp) : deltaTime last cur = 0 := by
  simp [deltaTime, wrapAdjust, h, sub64_self]

theorem emittedPower_eq_none_iff (last cur : zes_power_energy_counter_t) :
    emittedPower last cur = none ↔ deltaTime last cur = 0 := by
  unfold emittedPower
  by_cases h : deltaTime last cur > 0
  · simp [h]; omega
  · simp [h]; omega

theorem sampleDomain_failed (r : ze_result_t × zes_power_energy_counter_t)
    (domain : PowerDomainData) (data : GPUPowerData) (h : r.1 ≠ ZE_RESULT_SUCCESS) :
    sampleDomain r domain data = (domain, data) := by
  simp [sampleDomain, h]

theorem sampleDomain_fst (r : ze_result_t × zes_power_energy_counter_t)
    (domain : PowerDomainData) (data : GPUPowerData) :
    (sampleDomain r domain data).1 =
      if r.1 = ZE_RESULT_SUCCESS then
        { domain with lastCounter := wrapAdjust domain.lastCounter r.2 }
      else domain := by
  unfold sampleDomain
  split <;> rfl

theorem sampleDomain_fst_indep (r : ze_result_t × zes_power_energy_counter_t)
    (domain : PowerDomainData) (data data1 : GPUPowerData) :
    (sampleDomain r domain data).1 = (sampleDomain r domain data1).1 := by
  rw [sampleDomain_fst, sampleDomain_fst]

theorem sampleDomain_snd (r : ze_result_t × zes_power_energy_counter_t)
    (domain : PowerDomainData) (data : GPUPowerData) :
    (sampleDomain r domain data).2 = data ∨
      ∃ p : ℚ, 0 ≤ p ∧ r.1 = ZE_RESULT_SUCCESS ∧
        emittedPower domain.lastCounter r.2 = some p ∧
        (sampleDomain r domain data).2 = routePower domain p data := by
  unfold sampleDomain
  by_cases hr : r.1 = ZE_RESULT_SUCCESS
  · by_cases hd : deltaTime domain.lastCounter r.2 > 0
    · right
      refine ⟨power domain.lastCounter r.2, power_nonneg _ _, hr, ?_, ?_⟩
      · simp [emittedPower, hd]
      · simp [hr, emittedPower, hd]
    · left
      simp [hr, emittedPower, hd]
  · left
    simp [hr]

/-- Without wraparound a successful read stores the sample read. -/
theorem sampleDomain_stores_read_of_no_wrap (r : ze_result_t × zes_power_energy_counter_t)
    (domain : PowerDomainData) (data : GPUPowerData) (hr : r.1 = ZE_RESULT_SUCCESS)
    (ht : domain.lastCounter.timestamp ≤ r.2.timestamp)
    (he : domain.lastCounter.energy ≤ r.2.energy) :
    (sampleDomain r domain data).1.lastCounter = r.2 := by
  have hnt : ¬ r.2.timestamp < domain.lastCounter.timestamp := by omega
  have hne : ¬ r.2.energy < domain.lastCounter.energy := by omega
  rw [sampleDomain_fst]
  simp [hr, wrapAdjust, hnt, hne]

/-- C1: when the fresh timestamp is smaller than the stored one, the `deltaTime`
computed in 64-bit arithmetic is the integer `(current + UINT64_MAX) - previous`;
likewise, independently, for energy; and an emitted power value is never
negative. -/
theorem wraparound_delta_exact (last cur : zes_power_energy_counter_t)
    (hl : last.valid) :
    (cur.timestamp < last.timestamp →
      ((deltaTime last cur : Nat) : Int)
        = ((cur.timestamp : Int) + (UINT64_MAX : Int)) - (last.timestamp : Int)) ∧
    (cur.energy < last.energy →
      ((deltaEnergy last cur : Nat) : Int)
        = ((cur.energy : Int) + (UINT64_MAX : Int)) - (last.energy : Int)) ∧
    (∀ p : ℚ, emittedPower last cur = some p → 0 ≤ p) := by
  refine ⟨?_, ?_, ?_⟩
  · intro h
    unfold deltaTime wrapAdjust
    simp only [h, if_true]
    exact sub64_add64_max _ _ h hl.2
  · intro h
    unfold deltaEnergy wrapAdjust
    simp only [h, if_true]
    exact sub64_add64_max _ _ h hl.1
  · intro p hp
    unfold emittedPower at hp
    split at hp
    · cases hp
      exact power_nonneg _ _
    · cases hp

theorem wraparound_delta_exact_witness :
    ((deltaTime ⟨100, 100⟩ ⟨50, 40⟩ : Nat) : Int)
        = ((40 : Nat) : Int) + (UINT64_MAX : Int) - ((100 : Nat) : Int) ∧
    ((deltaEnergy ⟨100, 100⟩ ⟨50, 40⟩ : Nat) : Int)
        = ((50 : Nat) : Int) + (UINT64_MAX : Int) - ((100 : Nat) : Int) :=
  have h := wraparound_delta_exact ⟨100, 100⟩ ⟨50, 40⟩ (by decide)
  ⟨h.1 (by decide), h.2.1 (by decide)⟩

/-- C2 (the code at the failing input): with stored sample (energy 10, timestamp 10)
and a successful read returning (energy 20, timestamp 5), the sample stored is
(energy 20, timestamp 4), not the one read. -/
theorem sampleDomain_stores_adjusted_sample :
    (sampleDomain (ZE_RESULT_SUCCESS, ⟨20, 5⟩)
        { handle := 1, isCardLevel := true, subdeviceId := 0, lastCounter := ⟨10, 10⟩ }
        (initialData ⟨1, "gpu", "", []⟩)).1.lastCounter = ⟨20, 4⟩ ∧
    (sampleDomain (ZE_RESULT_SUCCESS, ⟨20, 5⟩)
        { handle := 1, isCardLevel := true, subdeviceId := 0, lastCounter := ⟨10, 10⟩ }
        (initialData ⟨1, "gpu", "", []⟩)).1.lastCounter ≠ ⟨20, 5⟩ := by
  rw [sampleDomain_fst]
  decide

/-- C3: a fresh sample whose timestamp equals the stored one emits no power value
(the division is not evaluated) and leaves the reading as it was before the
domain was processed, whatever the energies and the result code. -/
theorem equal_timestamp_no_update (r : ze_result_t × zes_power_energy_counter_t)
    (domain : PowerDomainData) (data : GPUPowerData)
    (h : r.2.timestamp = domain.lastCounter.timestamp) :
    emittedPower domain.lastCounter r.2 = none ∧ (sampleDomain r domain data).2 = data := by
  have hn : emittedPower domain.lastCounter r.2 = none :=
    (emittedPower_eq_none_iff _ _).2 (deltaTime_of_timestamp_eq _ _ h)
  refine ⟨hn, ?_⟩
  unfold sampleDomain
  split
  · simp [hn]
  · rfl

theorem equal_timestamp_no_update_witness :
    emittedPower ⟨10, 7⟩ ⟨900, 7⟩ = none ∧
    (sampleDomain (ZE_RESULT_SUCCESS, ⟨900, 7⟩)
        { handle := 1, isCardLevel := true, subdeviceId := 0, lastCounter := ⟨10, 7⟩ }
        (initialData ⟨1, "gpu", "", []⟩)).2 = initialData ⟨1, "gpu", "", []⟩ :=
  equal_timestamp_no_update (ZE_RESULT_SUCCESS, ⟨900, 7⟩)
    { handle := 1, isCardLevel := true, subdeviceId := 0, lastCounter := ⟨10, 7⟩ }
    (initialData ⟨1, "gpu", "", []⟩) rfl

/-- C4: without wraparound and with a later timestamp, the power emitted and routed
to the reading is the exact quotient of the energy difference by the timestamp
difference. -/
theorem power_exact_quotient (cur : zes_power_energy_counter_t)
    (domain : PowerDomainData) (data : GPUPowerData) (hc : cur.valid)
    (ht : cur.timestamp > domain.lastCounter.timestamp)
    (he : cur.energy ≥ domain.lastCounter.energy) :
    emittedPower domain.lastCounter cur
      = some (((cur.energy : ℚ) - (domain.lastCounter.energy : ℚ))
          / ((cur.timestamp : ℚ) - (domain.lastCounter.timestamp : ℚ))) ∧
    (sampleDomain (ZE_RESULT_SUCCESS, cur) domain data).2
      = routePower domain
          (((cur.energy : ℚ) - (domain.lastCounter.energy : ℚ))
            / ((cur.timestamp : ℚ) - (domain.lastCounter.timestamp : ℚ))) data := by
  have hdt : deltaTime domain.lastCounter cur = cur.timestamp - domain.lastCounter.timestamp := by
    have hnt : ¬ cur.timestamp < domain.lastCounter.timestamp := by omega
    simp only [deltaTime, wrapAdjust, hnt, if_false]
    exact sub64_of_le _ _ (by omega) hc.2
  have hde : deltaEnergy domain.lastCounter cur = cur.energy - domain.lastCounter.energy := by
    have hne : ¬ cur.energy < domain.lastCounter.energy := by omega
    simp only [deltaEnergy, wrapAdjust, hne, if_false]
    exact sub64_of_le _ _ (by omega) hc.1
  have hp : emittedPower domain.lastCounter cur
      = some (((cur.energy : ℚ) - (domain.lastCounter.energy : ℚ))
          / ((cur.timestamp : ℚ) - (domain.lastCounter.timestamp : ℚ))) := by
    unfold emittedPower power
    rw [if_pos (by omega), hdt, hde, Nat.cast_sub he, Nat.cast_sub (le_of_lt ht)]
  refine ⟨hp, ?_⟩
  unfold sampleDomain
  simp [hp]

theorem power_exact_quotient_witness :
    emittedPower ⟨1000, 0⟩ ⟨3000, 1000⟩ = some 2 := by
  have h := (power_exact_quotient ⟨3000, 1000⟩
    { handle := 1, isCardLevel := true, subdeviceId := 0, lastCounter := ⟨1000, 0⟩ }
    (initialData ⟨1, "gpu", "", []⟩) (by decide) (by decide) (by decide)).1
  rw [h]
  norm_num

/-! ## Routing frame -/

theorem routePower_card (domain : PowerDomainData) (p : ℚ) (data : GPUPowerData)
    (h : domain.isCardLevel = true) :
    routePower domain p data = { data with card_power := p } := by
  simp [routePower, h]

theorem routePower_tile0 (domain : PowerDomainData) (p : ℚ) (data : GPUPowerData)
    (h : domain.isCardLevel = false) (h0 : domain.subdeviceId = 0) :
    routePower domain p data = { data with tile0_power := p } := by
  simp [routePower, h, h0]

theorem routePower_tile1 (domain : PowerDomainData) (p : ℚ) (data : GPUPowerData)
    (h : domain.isCardLevel = false) (h1 : domain.subdeviceId = 1) :
    routePower domain p data = { data with tile1_power := p } := by
  simp [routePower, h, h1]

theorem routePower_other (domain : PowerDomainData) (p : ℚ) (data : GPUPowerData)
    (h : domain.isCardLevel = false) (h0 : domain.subdeviceId ≠ 0)
    (h1 : domain.subdeviceId ≠ 1) :
    routePower domain p data = data := by
  simp [routePower, h, h0, h1]

theorem sampleDomain_card_frame (r : ze_result_t × zes_power_energy_counter_t)
    (domain : PowerDomainData) (data : GPUPowerData) (hc : domain.isCardLevel = true) :
    (sampleDomain r domain data).2
      = { data with card_power := (sampleDomain r domain data).2.card_power } := by
  rcases sampleDomain_snd r domain data with h | ⟨p, -, -, -, h⟩
  · rw [h]
  · rw [h, routePower_card domain p data hc]

/-- C7: a tile domain whose `subdeviceId` is neither 0 nor 1 leaves the reading as
it was, whatever is read; a card-level domain changes at most `card_power`, a
tile with `subdeviceId` 0 at most `tile0_power`, a tile with `subdeviceId` 1 at
most `tile1_power`. -/
theorem routing_frame (r : ze_result_t × zes_power_energy_counter_t)
    (domain : PowerDomainData) (data : GPUPowerData) :
    (domain.isCardLevel = false → domain.subdeviceId ≠ 0 → domain.subdeviceId ≠ 1 →
      (sampleDomain r domain data).2 = data) ∧
    (domain.isCardLevel = true →
      (sampleDomain r domain data).2
        = { data with card_power := (sampleDomain r domain data).2.card_power }) ∧
    (domain.isCardLevel = false → domain.subdeviceId = 0 →
      (sampleDomain r domain data).2
        = { data with tile0_power := (sampleDomain r domain data).2.tile0_power }) ∧
    (domain.isCardLevel = false → domain.subdeviceId = 1 →
      (sampleDomain r domain data).2
        = { data with tile1_power := (sampleDomain r domain data).2.tile1_power }) := by
  rcases sampleDomain_snd r domain data with h | ⟨p, -, -, -, h⟩
  · rw [h]
    exact ⟨fun _ _ _ => rfl, fun _ => rfl, fun _ _ => rfl, fun _ _ => rfl⟩
  · rw [h]
    refine ⟨?_, ?_, ?_, ?_⟩
    · intro hc h0 h1
      exact routePower_other domain p data hc h0 h1
    · intro hc
      rw [routePower_card domain p data hc]
    · intro hc h0
      rw [routePower_tile0 domain p data hc h0]
    · intro hc h1
      rw [routePower_tile1 domain p data hc h1]

theorem routing_frame_witness :
    (sampleDomain (ZE_RESULT_SUCCESS, ⟨3000, 1000⟩)
        { handle := 4, isCardLevel := false, subdeviceId := 2, lastCounter := ⟨1000, 0⟩ }
        (initialData ⟨1, "gpu", "", []⟩)).2 = initialData ⟨1, "gpu", "", []⟩ :=
  (routing_frame (ZE_RESULT_SUCCESS, ⟨3000, 1000⟩)
    { handle := 4, isCardLevel := false, subdeviceId := 2, lastCounter := ⟨1000, 0⟩ }
    (initialData ⟨1, "gpu", "", []⟩)).1 rfl (by decide) (by decide)

/-! ## One pass over the domains of a device -/

theorem sampleDomains_append (read : zes_pwr_handle_t → ze_result_t × zes_power_energy_counter_t)
    (pre rest : List PowerDomainData) (data : GPUPowerData) :
    sampleDomains read (pre ++ rest) data
      = ((sampleDomains read pre data).1
            ++ (sampleDomains read rest (sampleDomains read pre data).2).1,
          (sampleDomains read rest (sampleDomains read pre data).2).2) := by
  induction pre generalizing data with
  | nil => simp [sampleDomains]
  | cons d ds ih => simp [sampleDomains, ih]

theorem sampleDomains_fst (read : zes_pwr_handle_t → ze_result_t × zes_power_energy_counter_t)
    (ds : List PowerDomainData) (data data1 : GPUPowerData) :
    (sampleDomains read ds data).1
      = ds.map (fun d => (sampleDomain (read d.handle) d data1).1) := by
  induction ds generalizing data with
  | nil => simp [sampleDomains]
  | cons d ds ih =>
    simp only [sampleDomains, List.map_cons]
    rw [ih, sampleDomain_fst_indep (read d.handle) d data data1]

theorem sampleDomains_tiles (read : zes_pwr_handle_t → ze_result_t × zes_power_energy_counter_t)
    (ds : List PowerDomainData) (data : GPUPowerData)
    (h : ∀ d ∈ ds, d.isCardLevel = true) :
    (sampleDomains read ds data).2.tile0_power = data.tile0_power ∧
    (sampleDomains read ds data).2.tile1_power = data.tile1_power := by
  induction ds generalizing data with
  | nil => simp [sampleDomains]
  | cons d ds ih =>
    simp only [sampleDomains]
    have hd : d.isCardLevel = true := h d (List.mem_cons_self _ _)
    have hs := sampleDomain_card_frame (read d.handle) d data hd
    have ht := ih (sampleDomain (read d.handle) d data).2
      (fun x hx => h x (List.mem_cons_of_mem _ hx))
    rw [ht.1, ht.2, hs]
    exact ⟨rfl, rfl⟩

theorem sampleDomains_card (read : zes_pwr_handle_t → ze_result_t × zes_power_energy_counter_t)
    (ds : List PowerDomainData) (data : GPUPowerData)
    (h : ∀ d ∈ ds, d.isCardLevel = false) :
    (sampleDomains read ds data).2.card_power = data.card_power := by
  induction ds generalizing data with
  | nil => simp [sampleDomains]
  | cons d ds ih =>
    simp only [sampleDomains]
    have hd : d.isCardLevel = false := h d (List.mem_cons_self _ _)
    rw [ih (sampleDomain (read d.handle) d data).2 (fun x hx => h x (List.mem_cons_of_mem _ hx))]
    rcases sampleDomain_snd (read d.handle) d data with hs | ⟨p, -, -, -, hs⟩
    · rw [hs]
    · rw [hs]
      unfold routePower
      rw [hd]
      simp only [Bool.false_eq_true, if_false]
      split_ifs <;> rfl

theorem getPowerReadings_readings
    (read : zes_pwr_handle_t → ze_result_t × zes_power_energy_counter_t)
    (m : GPUPowerMonitor) (h : m.initialized = true) :
    (getPowerReadings read m).1 = m.devices.map (fun d => (sampleDevice read d).2) := by
  simp [getPowerReadings, h, List.map_map, Function.comp_def]

theorem getPowerReadings_devices
    (read : zes_pwr_handle_t → ze_result_t × zes_power_energy_counter_t)
    (m : GPUPowerMonitor) (h : m.initialized = true) :
    (getPowerReadings read m).2.devices = m.devices.map (fun d => (sampleDevice read d).1) := by
  simp [getPowerReadings, h, List.map_map, Function.comp_def]

/-- C5: a failed counter read leaves the domain and the reading exactly as they were;
the domains after it are processed as if it were not in the list; after the pass
the monitor holds the domain unchanged at its place; and the pass returns one
reading per device. -/
theorem failed_read_is_skipped
    (read : zes_pwr_handle_t → ze_result_t × zes_power_energy_counter_t)
    (m : GPUPowerMonitor) (hinit : m.initialized = true) :
    (∀ (domain : PowerDomainData) (data : GPUPowerData),
      (read domain.handle).1 ≠ ZE_RESULT_SUCCESS →
      sampleDomain (read domain.handle) domain data = (domain, data)) ∧
    (∀ (pre : List PowerDomainData) (domain : PowerDomainData) (rest : List PowerDomainData)
        (data : GPUPowerData), (read domain.handle).1 ≠ ZE_RESULT_SUCCESS →
      sampleDomains read (pre ++ domain :: rest) data
        = ((sampleDomains read pre data).1
              ++ domain :: (sampleDomains read rest (sampleDomains read pre data).2).1,
            (sampleDomains read rest (sampleDomains read pre data).2).2)) ∧
    (∀ (i j : Nat) (device : DeviceData) (domain : PowerDomainData),
      m.devices[i]? = some device →
      device.powerDomains[j]? = some domain →
      (read domain.handle).1 ≠ ZE_RESULT_SUCCESS →
      ∃ device1 : DeviceData, (getPowerReadings read m).2.devices[i]? = some device1 ∧
        device1.powerDomains[j]? = some domain) ∧
    (getPowerReadings read m).1.length = m.devices.length := by
  refine ⟨?_, ?_, ?_, ?_⟩
  · intro domain data h
    exact sampleDomain_failed _ _ _ h
  · intro pre domain rest data h
    rw [sampleDomains_append]
    simp only [sampleDomains, sampleDomain_failed _ _ _ h]
  · intro i j device domain hi hj h
    refine ⟨(sampleDevice read device).1, ?_, ?_⟩
    · rw [getPowerReadings_devices read m hinit, List.getElem?_map, hi]
      rfl
    · show (sampleDomains read device.powerDomains (initialData device)).1[j]? = some domain
      rw [sampleDomains_fst read _ _ (initialData device), List.getElem?_map, hj]
      simp only [Option.map_some', sampleDomain_failed _ _ _ h]
  · rw [getPowerReadings_readings read m hinit, List.length_map]

theorem failed_read_is_skipped_witness :
    sampleDomain (exampleRead cardDomain.handle) cardDomain (initialData ⟨10, "gpu", "", []⟩)
      = (cardDomain, initialData ⟨10, "gpu", "", []⟩) ∧
    (∃ device1 : DeviceData, (getPowerReadings exampleRead exampleMonitor).2.devices[0]? = some device1 ∧
      device1.powerDomains[0]? = some cardDomain) ∧
    (getPowerReadings exampleRead exampleMonitor).1.length = 2 :=
  have h := failed_read_is_skipped exampleRead exampleMonitor rfl
  ⟨h.1 cardDomain _ (by decide),
   h.2.2.1 0 0 ⟨10, "gpu", "", [cardDomain]⟩ cardDomain rfl rfl (by decide),
   h.2.2.2⟩

/-- C6: in every pass over an initialised monitor, the reading of a device whose
domains are all card-level has both tile fields at -1, and the reading of a
device none of whose domains is card-level has `card_power` at -1. -/
theorem single_kind_device_sentinels
    (read : zes_pwr_handle_t → ze_result_t × zes_power_energy_counter_t)
    (m : GPUPowerMonitor) (i : Nat) (device : DeviceData)
    (hinit : m.initialized = true) (hdev : m.devices[i]? = some device) :
    ∃ reading : GPUPowerData, (getPowerReadings read m).1[i]? = some reading ∧
      ((∀ d ∈ device.powerDomains, d.isCardLevel = true) →
        reading.tile0_power = -1 ∧ reading.tile1_power = -1) ∧
      ((∀ d ∈ device.powerDomains, d.isCardLevel = false) →
        reading.card_power = -1) := by
  refine ⟨(sampleDevice read device).2, ?_, ?_, ?_⟩
  · rw [getPowerReadings_readings read m hinit, List.getElem?_map, hdev]
    rfl
  · intro h
    exact sampleDomains_tiles read device.powerDomains (initialData device) h
  · intro h
    exact sampleDomains_card read device.powerDomains (initialData device) h

theorem single_kind_device_sentinels_witness :
    (∃ reading : GPUPowerData, (getPowerReadings exampleRead exampleMonitor).1[0]? = some reading ∧
      reading.tile0_power = -1 ∧ reading.tile1_power = -1) ∧
    (∃ reading : GPUPowerData, (getPowerReadings exampleRead exampleMonitor).1[1]? = some reading ∧
      reading.card_power = -1) :=
  have h0 := single_kind_device_sentinels exampleRead exampleMonitor 0
    ⟨10, "gpu", "", [cardDomain]⟩ rfl rfl
  have h1 := single_kind_device_sentinels exampleRead exampleMonitor 1
    ⟨11, "gpu", "", [tileDomain]⟩ rfl rfl
  ⟨h0.elim fun reading hr => ⟨reading, hr.1, hr.2.1 (by decide)⟩,
   h1.elim fun reading hr => ⟨reading, hr.1, hr.2.2 (by decide)⟩⟩

/-! ## Discovery as a filter over the enumerated handles -/

theorem filledVector_length (count : Nat) (written : List Nat) :
    (filledVector count written).length = count := by
  simp [filledVector]

theorem initDomains_eq_filterMap (zes : Sysman) (powerHandles : List zes_pwr_handle_t) :
    initDomains zes powerHandles = powerHandles.filterMap (initDomain zes) := by
  have h : ∀ acc : List PowerDomainData,
      powerHandles.foldl
        (fun powerDomains powerHandle =>
          match initDomain zes powerHandle with
          | some domain => powerDomains ++ [domain]
          | none => powerDomains)
        acc = acc ++ powerHandles.filterMap (initDomain zes) := by
    induction powerHandles with
    | nil => simp
    | cons x xs ih =>
      intro acc
      simp only [List.foldl_cons, List.filterMap_cons]
      cases hx : initDomain zes x with
      | none => simp [ih]
      | some y => simp [ih]
  simpa [initDomains] using h []

theorem initDomain_isSome (zes : Sysman) (powerHandle : zes_pwr_handle_t) :
    (initDomain zes powerHandle).isSome = domainUsable zes powerHandle := by
  unfold initDomain domainUsable
  by_cases h1 : (zes.zesPowerGetProperties powerHandle).1 = ZE_RESULT_SUCCESS
  · by_cases h2 : (zes.zesPowerGetEnergyCounter powerHandle).1 = ZE_RESULT_SUCCESS
    · simp [h1, h2]
    · simp [h1, h2]
  · simp [h1]

theorem initDevice_isSome (zes : Sysman) (deviceHandle : zes_device_handle_t) :
    (initDevice zes deviceHandle).isSome = deviceRetained zes deviceHandle := by
  unfold initDevice deviceRetained
  by_cases h1 : (zes.zesDeviceGetProperties deviceHandle).1 = ZE_RESULT_SUCCESS
  · by_cases h2 : (zes.zesDeviceEnumPowerDomainsCount deviceHandle).1 = ZE_RESULT_SUCCESS
    · by_cases h3 : (zes.zesDeviceEnumPowerDomainsCount deviceHandle).2 = 0
      · simp [h1, h2, h3]
      · by_cases h4 : (zes.zesDeviceEnumPowerDomains deviceHandle
            (zes.zesDeviceEnumPowerDomainsCount deviceHandle).2).1 = ZE_RESULT_SUCCESS
        · simp [h1, h2, h3, h4]
        · simp [h1, h2, h3, h4]
    · simp [h1, h2]
  · simp [h1]

theorem initDevice_eq_some (zes : Sysman) (deviceHandle : zes_device_handle_t)
    (device : DeviceData) (h : initDevice zes deviceHandle = some device) :
    device.device = deviceHandle ∧
    device.name = (zes.zesDeviceGetProperties deviceHandle).2.modelName ∧
    device.uuid = formatUuid (zes.zesDeviceGetProperties deviceHandle).2.uuid ∧
    device.powerDomains = initDomains zes (powerHandlesOf zes deviceHandle) ∧
    deviceRetained zes deviceHandle = true := by
  have hr : deviceRetained zes deviceHandle = true := by
    rw [← initDevice_isSome, h]
    rfl
  refine ⟨?_, ?_, ?_, ?_, hr⟩ <;>
  · unfold initDevice at h
    simp only [] at h
    split_ifs at h
    cases h
    rfl

theorem initDeviceHandles_eq (zes : Sysman) (deviceHandles : List zes_device_handle_t)
    (devices : List DeviceData) :
    initDeviceHandles zes deviceHandles devices
      = devices ++ deviceHandles.filterMap (initDevice zes) := by
  unfold initDeviceHandles
  induction deviceHandles generalizing devices with
  | nil => simp
  | cons x xs ih =>
    simp only [List.foldl_cons, List.filterMap_cons]
    cases hx : initDevice zes x with
    | none => simp [ih]
    | some y => simp [ih]

theorem initDriver_eq (zes : Sysman) (driver : zes_driver_handle_t) (devices : List DeviceData) :
    initDriver zes driver devices
      = devices ++ (deviceHandlesOf zes driver).filterMap (initDevice zes) := by
  unfold initDriver deviceHandlesOf
  by_cases h1 : (zes.zesDeviceGetCount driver).1 = ZE_RESULT_SUCCESS
  · by_cases h2 : (zes.zesDeviceGetCount driver).2 = 0
    · simp [h1, h2]
    · by_cases h3 : (zes.zesDeviceGet driver (zes.zesDeviceGetCount driver).2).1
          = ZE_RESULT_SUCCESS
      · simp [h1, h2, h3, initDeviceHandles_eq]
      · simp [h1, h2, h3]
  · simp [h1]

theorem foldl_initDriver (zes : Sysman) (drivers : List zes_driver_handle_t)
    (devices : List DeviceData) :
    drivers.foldl (fun devs driver => initDriver zes driver devs) devices
      = devices ++ (drivers.flatMap (deviceHandlesOf zes)).filterMap (initDevice zes) := by
  induction drivers generalizing devices with
  | nil => simp
  | cons d ds ih =>
    simp only [List.foldl_cons, List.flatMap_cons, List.filterMap_append]
    rw [ih, initDriver_eq, List.append_assoc]

/-- The device list after `initializeDevices`: the devices already held, followed by
the device built for each enumerated handle that passes, in enumeration order. -/
theorem initializeDevices_devices (zes : Sysman) (m : GPUPowerMonitor) :
    (initializeDevices zes m).2.devices
      = m.devices ++ (enumeratedDevices zes).filterMap (initDevice zes) := by
  unfold initializeDevices enumeratedDevices
  by_cases h1 : zes.zesInit = ZE_RESULT_SUCCESS
  · by_cases h2 : zes.zesDriverGetCount.1 = ZE_RESULT_SUCCESS
    · by_cases h3 : zes.zesDriverGetCount.2 = 0
      · simp [h1, h2, h3]
      · by_cases h4 : (zes.zesDriverGet zes.zesDriverGetCount.2).1 = ZE_RESULT_SUCCESS
        · simp [h1, h2, h3, h4, foldl_initDriver]
        · simp [h1, h2, h3, h4]
    · simp [h1, h2]
  · simp [h1]

/-- The value `initializeDevices` returns on a monitor holding no device. -/
theorem initializeDevices_fst (zes : Sysman) (m : GPUPowerMonitor) (hm : m.devices = []) :
    (initializeDevices zes m).1
      = !((enumeratedDevices zes).filterMap (initDevice zes)).isEmpty := by
  unfold initializeDevices enumeratedDevices
  by_cases h1 : zes.zesInit = ZE_RESULT_SUCCESS
  · by_cases h2 : zes.zesDriverGetCount.1 = ZE_RESULT_SUCCESS
    · by_cases h3 : zes.zesDriverGetCount.2 = 0
      · simp [h1, h2, h3]
      · by_cases h4 : (zes.zesDriverGet zes.zesDriverGetCount.2).1 = ZE_RESULT_SUCCESS
        · simp [h1, h2, h3, h4, foldl_initDriver, hm]
        · simp [h1, h2, h3, h4]
    · simp [h1, h2]
  · simp [h1]

theorem map_device_filterMap_initDevice (zes : Sysman) (deviceHandles : List zes_device_handle_t) :
    (deviceHandles.filterMap (initDevice zes)).map DeviceData.device
      = deviceHandles.filter (deviceRetained zes) := by
  induction deviceHandles with
  | nil => rfl
  | cons x xs ih =>
    have hs := initDevice_isSome zes x
    cases hx : initDevice zes x with
    | none =>
      rw [hx] at hs
      have hr : deviceRetained zes x = false := hs.symm
      simp [List.filterMap_cons, hx, List.filter_cons, hr, ih]
    | some d =>
      rw [hx] at hs
      have hr : deviceRetained zes x = true := hs.symm
      have hd := (initDevice_eq_some zes x d hx).1
      simp [List.filterMap_cons, hx, List.filter_cons, hr, ih, hd]

theorem initDomains_ne_nil_iff (zes : Sysman) (powerHandles : List zes_pwr_handle_t) :
    initDomains zes powerHandles ≠ [] ↔ ∃ p ∈ powerHandles, domainUsable zes p = true := by
  rw [initDomains_eq_filterMap, Ne, List.filterMap_eq_nil_iff]
  constructor
  · intro h
    by_contra hne
    apply h
    intro p hp
    have hu : domainUsable zes p ≠ true := fun hu => hne ⟨p, hp, hu⟩
    rw [← initDomain_isSome] at hu
    cases hd : initDomain zes p with
    | none => rfl
    | some d => rw [hd] at hu; exact absurd rfl hu
  · rintro ⟨p, hp, hu⟩ h
    rw [← initDomain_isSome, h p hp] at hu
    cases hu

/-- C8 (counterexample): when every power domain fails its property read, discovery
still produces devices, each with an empty domain list. -/
theorem discovered_device_without_domain :
    ¬ ∀ d ∈ (initializeDevices scenarioNoDomain GPUPowerMonitor.new).2.devices,
        d.powerDomains ≠ [] := by
  decide

/-- C8 (amended): every device discovery produces was enumerated, passed its
property read and had a power-domain enumeration that succeeded with a non-zero
count, so at least one power-domain handle was enumerated for it; its domain list
is non-empty exactly when one of those handles passed both the property read and
the initial counter read. Conversely every enumerated device that passed its
property read and whose power-domain enumeration succeeded with a non-zero count
is in the result, with an empty domain list when every one of its power domains
fails a read; a device whose property read or enumeration fails, or whose count
is zero, is not in the result. -/
theorem discovered_device_enumeration (zes : Sysman) :
    (∀ device ∈ (initializeDevices zes GPUPowerMonitor.new).2.devices,
      device.device ∈ enumeratedDevices zes ∧
      deviceRetained zes device.device = true ∧
      powerHandlesOf zes device.device ≠ [] ∧
      (device.powerDomains ≠ [] ↔
        ∃ p ∈ powerHandlesOf zes device.device, domainUsable zes p = true)) ∧
    (∀ h ∈ enumeratedDevices zes, deviceRetained zes h = true →
      ∃ device ∈ (initializeDevices zes GPUPowerMonitor.new).2.devices,
        device.device = h ∧
        device.powerDomains = initDomains zes (powerHandlesOf zes h) ∧
        ((∀ p ∈ powerHandlesOf zes h, domainUsable zes p = false) →
          device.powerDomains = [])) ∧
    (∀ h : zes_device_handle_t, deviceRetained zes h = false →
      ∀ device ∈ (initializeDevices zes GPUPowerMonitor.new).2.devices,
        device.device ≠ h) := by
  have hdev : (initializeDevices zes GPUPowerMonitor.new).2.devices
      = (enumeratedDevices zes).filterMap (initDevice zes) := by
    rw [initializeDevices_devices]
    rfl
  have hfirst : ∀ device ∈ (initializeDevices zes GPUPowerMonitor.new).2.devices,
      device.device ∈ enumeratedDevices zes ∧
      deviceRetained zes device.device = true ∧
      powerHandlesOf zes device.device ≠ [] ∧
      (device.powerDomains ≠ [] ↔
        ∃ p ∈ powerHandlesOf zes device.device, domainUsable zes p = true) := by
    intro device h
    rw [hdev] at h
    obtain ⟨x, hx, hd⟩ := List.mem_filterMap.1 h
    obtain ⟨h1, -, -, h4, h5⟩ := initDevice_eq_some zes x device hd
    subst h1
    refine ⟨hx, h5, ?_, ?_⟩
    · intro hnil
      have hl := filledVector_length (zes.zesDeviceEnumPowerDomainsCount device.device).2
        (zes.zesDeviceEnumPowerDomains device.device
          (zes.zesDeviceEnumPowerDomainsCount device.device).2).2
      unfold powerHandlesOf at hnil
      rw [hnil] at hl
      simp [deviceRetained] at h5
      exact h5.1.2 hl.symm
    · rw [h4]
      exact initDomains_ne_nil_iff zes _
  refine ⟨hfirst, ?_, ?_⟩
  · intro h hmem hret
    rw [← initDevice_isSome] at hret
    cases hd : initDevice zes h with
    | none => rw [hd] at hret; cases hret
    | some device =>
      obtain ⟨h1, -, -, h4, -⟩ := initDevice_eq_some zes h device hd
      refine ⟨device, ?_, h1, h4, ?_⟩
      · rw [hdev]
        exact List.mem_filterMap.2 ⟨h, hmem, hd⟩
      · intro hall
        by_contra hne
        rw [h4] at hne
        obtain ⟨p, hp, hu⟩ := (initDomains_ne_nil_iff zes _).1 hne
        rw [hall p hp] at hu
        cases hu
  · intro h hret device hmem hdh
    have hr := (hfirst device hmem).2.1
    rw [hdh, hret] at hr
    cases hr

theorem discovered_device_enumeration_witness :
    (∃ device ∈ (initializeDevices scenarioNoDomain GPUPowerMonitor.new).2.devices,
      device.device = 10 ∧
      device.powerDomains = initDomains scenarioNoDomain (powerHandlesOf scenarioNoDomain 10) ∧
      device.powerDomains = []) ∧
    (exampleDevice10.device ∈ enumeratedDevices scenarioMiddleFails ∧
      deviceRetained scenarioMiddleFails exampleDevice10.device = true ∧
      powerHandlesOf scenarioMiddleFails exampleDevice10.device ≠ [] ∧
      (exampleDevice10.powerDomains ≠ [] ↔
        ∃ p ∈ powerHandlesOf scenarioMiddleFails exampleDevice10.device,
          domainUsable scenarioMiddleFails p = true)) ∧
    (∀ device ∈ (initializeDevices scenarioMiddleFails GPUPowerMonitor.new).2.devices,
      device.device ≠ 11) :=
  have h := (discovered_device_enumeration scenarioNoDomain).2.1 10 (by decide) (by decide)
  ⟨h.elim fun device hd => ⟨device, hd.1, hd.2.1, hd.2.2.1, hd.2.2.2 (by decide)⟩,
   (discovered_device_enumeration scenarioMiddleFails).1 exampleDevice10 (by decide),
   (discovered_device_enumeration scenarioMiddleFails).2.2 11 (by decide)⟩

/-- C9 (counterexample): when every power domain fails its property read, the first
`initialize()` returns true although no device of the result has a domain and no
enumerated power domain passed its reads. -/
theorem initialize_true_without_usable_domain :
    (initializeMonitor scenarioNoDomain GPUPowerMonitor.new).1 = true ∧
    (∀ d ∈ (initializeMonitor scenarioNoDomain GPUPowerMonitor.new).2.devices,
      d.powerDomains = []) ∧
    (∀ h ∈ enumeratedDevices scenarioNoDomain, ∀ p ∈ powerHandlesOf scenarioNoDomain h,
      domainUsable scenarioNoDomain p = false) := by
  decide

/-- C9 (amended): the first `initialize()` on a fresh monitor returns true exactly
when some enumerated device passed its property read and had a power-domain
enumeration that succeeded with a non-zero count. -/
theorem initialize_true_iff (zes : Sysman) :
    ((initializeMonitor zes GPUPowerMonitor.new).1 = true ↔
      (initializeMonitor zes GPUPowerMonitor.new).2.devices ≠ []) ∧
    ((initializeMonitor zes GPUPowerMonitor.new).1 = true ↔
      ∃ h ∈ enumeratedDevices zes, deviceRetained zes h = true) := by
  have hf := initializeDevices_fst zes GPUPowerMonitor.new rfl
  have hm : (initializeMonitor zes GPUPowerMonitor.new).1
      = (initializeDevices zes GPUPowerMonitor.new).1 := rfl
  have hd : (initializeMonitor zes GPUPowerMonitor.new).2.devices
      = (initializeDevices zes GPUPowerMonitor.new).2.devices := rfl
  rw [hm, hd, hf, initializeDevices_devices]
  simp only [GPUPowerMonitor.new, List.nil_append, Bool.not_eq_true', List.isEmpty_eq_false,
    ne_eq, List.filterMap_eq_nil_iff, not_forall, true_and]
  constructor
  · rintro ⟨x, hx, hn⟩
    refine ⟨x, hx, ?_⟩
    rw [← initDevice_isSome]
    cases hd : initDevice zes x with
    | none => exact absurd hd hn
    | some d => rfl
  · rintro ⟨x, hx, hr⟩
    refine ⟨x, hx, ?_⟩
    intro hn
    rw [← initDevice_isSome, hn] at hr
    cases hr

/-- C10: for a driver whose device enumeration succeeds, the devices discovery
appends are those of the enumerated handles whose property read succeeded and
whose power-domain enumeration succeeded with a non-zero count, in enumeration
order, each being the record built for its handle. -/
theorem driver_devices_are_retained_sublist (zes : Sysman) (driver : zes_driver_handle_t)
    (devices : List DeviceData)
    (hc : (zes.zesDeviceGetCount driver).1 = ZE_RESULT_SUCCESS)
    (hn : (zes.zesDeviceGetCount driver).2 ≠ 0)
    (hg : (zes.zesDeviceGet driver (zes.zesDeviceGetCount driver).2).1 = ZE_RESULT_SUCCESS) :
    ∃ produced : List DeviceData,
      initDriver zes driver devices = devices ++ produced ∧
      produced.map DeviceData.device
        = (filledVector (zes.zesDeviceGetCount driver).2
            (zes.zesDeviceGet driver (zes.zesDeviceGetCount driver).2).2).filter
              (deviceRetained zes) ∧
      (produced.map DeviceData.device).Sublist
        (filledVector (zes.zesDeviceGetCount driver).2
          (zes.zesDeviceGet driver (zes.zesDeviceGetCount driver).2).2) ∧
      ∀ d ∈ produced, initDevice zes d.device = some d := by
  have hh : deviceHandlesOf zes driver
      = filledVector (zes.zesDeviceGetCount driver).2
          (zes.zesDeviceGet driver (zes.zesDeviceGetCount driver).2).2 := by
    simp [deviceHandlesOf, hc, hn, hg]
  refine ⟨(deviceHandlesOf zes driver).filterMap (initDevice zes), initDriver_eq zes driver devices,
    ?_, ?_, ?_⟩
  · rw [map_device_filterMap_initDevice, hh]
  · rw [map_device_filterMap_initDevice, hh]
    exact List.filter_sublist _
  · intro d hd
    obtain ⟨x, -, hx⟩ := List.mem_filterMap.1 hd
    rw [(initDevice_eq_some zes x d hx).1, hx]

theorem driver_devices_are_retained_sublist_witness :
    ∃ produced : List DeviceData,
      initDriver scenarioMiddleFails 1 [] = [] ++ produced ∧
      produced.map DeviceData.device = [10, 12] := by
  obtain ⟨produced, h1, h2, -, -⟩ :=
    driver_devices_are_retained_sublist scenarioMiddleFails 1 [] (by decide) (by decide)
      (by decide)
  exact ⟨produced, h1, h2.trans (by decide)⟩

/-! ## The domains of a discovered device -/

theorem toInt32_of_lt (n : Nat) (h : n < 2 ^ 31) : toInt32 n = (n : Int) := by
  have h1 : n % 2 ^ 32 = n := Nat.mod_eq_of_lt (by omega)
  unfold toInt32
  rw [h1, if_pos h]

theorem initDomain_eq_some (zes : Sysman) (powerHandle : zes_pwr_handle_t)
    (domain : PowerDomainData) (h : initDomain zes powerHandle = some domain) :
    domain.handle = powerHandle ∧
    domain.isCardLevel = !(zes.zesPowerGetProperties powerHandle).2.onSubdevice ∧
    domain.subdeviceId = toInt32 (zes.zesPowerGetProperties powerHandle).2.subdeviceId ∧
    domain.lastCounter = (zes.zesPowerGetEnergyCounter powerHandle).2 := by
  unfold initDomain at h
  simp only [] at h
  split_ifs at h
  cases h
  exact ⟨rfl, rfl, rfl, rfl⟩

theorem map_handle_filterMap_initDomain (zes : Sysman) (powerHandles : List zes_pwr_handle_t) :
    (powerHandles.filterMap (initDomain zes)).map PowerDomainData.handle
      = powerHandles.filter (domainUsable zes) := by
  induction powerHandles with
  | nil => rfl
  | cons x xs ih =>
    have hs := initDomain_isSome zes x
    cases hx : initDomain zes x with
    | none =>
      rw [hx] at hs
      have hr : domainUsable zes x = false := hs.symm
      simp [List.filterMap_cons, hx, List.filter_cons, hr, ih]
    | some d =>
      rw [hx] at hs
      have hr : domainUsable zes x = true := hs.symm
      have hd := (initDomain_eq_some zes x d hx).1
      simp [List.filterMap_cons, hx, List.filter_cons, hr, ih, hd]

theorem mem_discovered (zes : Sysman) (device : DeviceData)
    (h : device ∈ (initializeDevices zes GPUPowerMonitor.new).2.devices) :
    initDevice zes device.device = some device := by
  rw [initializeDevices_devices] at h
  simp only [GPUPowerMonitor.new, List.nil_append, List.mem_filterMap] at h
  obtain ⟨x, -, hd⟩ := h
  rw [(initDevice_eq_some zes x device hd).1, hd]

/-- C11 (counterexample): when the interface reports `subdeviceId = 2 ^ 32 - 1`, the
stored `int` is not that number. -/
theorem discovered_subdeviceId_differs :
    ¬ ∀ device ∈ (initializeDevices scenarioBigSubdevice GPUPowerMonitor.new).2.devices,
        ∀ d ∈ device.powerDomains,
          d.subdeviceId
            = (((scenarioBigSubdevice.zesPowerGetProperties d.handle).2.subdeviceId : Nat) : Int) := by
  decide

/-- C11 (amended): the domain list of a discovered device is, in enumeration order,
the enumerated power-domain handles that passed both the property read and the
initial counter read (a failing handle does not stop the later ones); each domain
has `isCardLevel` the negation of the interface's `onSubdevice`, `lastCounter` the
sample of the initial read, and `subdeviceId` the interface's `uint32_t` value
converted to `int`, which is the same number whenever that value is below
`2 ^ 31`. -/
theorem discovered_domains (zes : Sysman) (device : DeviceData)
    (h : device ∈ (initializeDevices zes GPUPowerMonitor.new).2.devices) :
    device.powerDomains.map PowerDomainData.handle
      = (powerHandlesOf zes device.device).filter (domainUsable zes) ∧
    ∀ d ∈ device.powerDomains,
      d.isCardLevel = !(zes.zesPowerGetProperties d.handle).2.onSubdevice ∧
      d.lastCounter = (zes.zesPowerGetEnergyCounter d.handle).2 ∧
      d.subdeviceId = toInt32 (zes.zesPowerGetProperties d.handle).2.subdeviceId ∧
      ((zes.zesPowerGetProperties d.handle).2.subdeviceId < 2 ^ 31 →
        d.subdeviceId = (((zes.zesPowerGetProperties d.handle).2.subdeviceId : Nat) : Int)) := by
  have hd := (initDevice_eq_some zes device.device device (mem_discovered zes device h)).2.2.2.1
  rw [initDomains_eq_filterMap] at hd
  refine ⟨?_, ?_⟩
  · rw [hd, map_handle_filterMap_initDomain]
  · intro d hmem
    rw [hd] at hmem
    obtain ⟨x, -, hx⟩ := List.mem_filterMap.1 hmem
    obtain ⟨h1, h2, h3, h4⟩ := initDomain_eq_some zes x d hx
    subst h1
    exact ⟨h2, h4, h3, fun hlt => h3.trans (toInt32_of_lt _ hlt)⟩

theorem discovered_domains_witness :
    exampleDevice10.powerDomains.map PowerDomainData.handle
      = (powerHandlesOf scenarioMiddleFails exampleDevice10.device).filter
          (domainUsable scenarioMiddleFails) :=
  (discovered_domains scenarioMiddleFails exampleDevice10 (by decide)).1

/-! ## The `initialized` flag -/

theorem initializeDevices_of_fatal (zes : Sysman) (m : GPUPowerMonitor)
    (h : zes.zesInit ≠ ZE_RESULT_SUCCESS ∨ zes.zesDriverGetCount.1 ≠ ZE_RESULT_SUCCESS ∨
      zes.zesDriverGetCount.2 = 0 ∨
      (zes.zesDriverGet zes.zesDriverGetCount.2).1 ≠ ZE_RESULT_SUCCESS) :
    initializeDevices zes m = (false, m) := by
  unfold initializeDevices
  by_cases h1 : zes.zesInit = ZE_RESULT_SUCCESS
  · by_cases h2 : zes.zesDriverGetCount.1 = ZE_RESULT_SUCCESS
    · by_cases h3 : zes.zesDriverGetCount.2 = 0
      · simp [h1, h2, h3]
      · by_cases h4 : (zes.zesDriverGet zes.zesDriverGetCount.2).1 = ZE_RESULT_SUCCESS
        · simp [h1, h2, h3, h4] at h
        · simp [h1, h2, h3, h4]
    · simp [h1, h2]
  · simp [h1]

theorem initializeMonitor_of_initialized (zes : Sysman) (m : GPUPowerMonitor)
    (h : m.initialized = true) : initializeMonitor zes m = (true, m) := by
  simp [initializeMonitor, h]

theorem initializeMonitor_of_not_initialized (zes : Sysman) (m : GPUPowerMonitor)
    (h : m.initialized = false) :
    initializeMonitor zes m
      = ((initializeDevices zes m).1,
          { (initializeDevices zes m).2 with initialized := (initializeDevices zes m).1 }) := by
  simp [initializeMonitor, h]

theorem initializeDevices_initialized (zes : Sysman) (m : GPUPowerMonitor) :
    (initializeDevices zes m).2.initialized = m.initialized := by
  unfold initializeDevices
  simp only []
  split_ifs <;> rfl

theorem initializeMonitor_flag (zes : Sysman) (m : GPUPowerMonitor) :
    (initializeMonitor zes m).2.initialized = (initializeMonitor zes m).1 := by
  cases h : m.initialized with
  | true => rw [initializeMonitor_of_initialized zes m h]; exact h
  | false => rw [initializeMonitor_of_not_initialized zes m h]

theorem getPowerReadings_initialized
    (read : zes_pwr_handle_t → ze_result_t × zes_power_energy_counter_t)
    (m : GPUPowerMonitor) : (getPowerReadings read m).2.initialized = m.initialized := by
  unfold getPowerReadings
  split <;> rfl

/-- A failed first call leaves a fresh monitor exactly as constructed. -/
theorem initializeMonitor_new_of_false (zes : Sysman)
    (h : (initializeMonitor zes GPUPowerMonitor.new).1 = false) :
    (initializeMonitor zes GPUPowerMonitor.new).2 = GPUPowerMonitor.new := by
  have h0 : GPUPowerMonitor.new.initialized = false := rfl
  rw [initializeMonitor_of_not_initialized zes _ h0] at h ⊢
  simp only at h
  have hd := initializeDevices_devices zes GPUPowerMonitor.new
  have hf := initializeDevices_fst zes GPUPowerMonitor.new rfl
  rw [h] at hf
  have he : (enumeratedDevices zes).filterMap (initDevice zes) = [] := by
    cases hl : (enumeratedDevices zes).filterMap (initDevice zes) with
    | nil => rfl
    | cons a l => rw [hl] at hf; simp at hf
  rw [he] at hd
  have hi := initializeDevices_initialized zes GPUPowerMonitor.new
  cases hr : (initializeDevices zes GPUPowerMonitor.new).2 with
  | mk devices initialized =>
    rw [hr] at hd hi
    simp only [GPUPowerMonitor.new, List.append_nil] at hd hi
    rw [h, hd]
    rfl

/-- C12: when subsystem initialisation fails, or driver enumeration returns an error
or zero drivers, `initializeDevices` returns false without touching the monitor;
on a fresh monitor the device set stays empty and `initialize()` returns false,
whatever the other entry points would answer. -/
theorem discovery_fatal_failures (zes : Sysman)
    (h : zes.zesInit ≠ ZE_RESULT_SUCCESS ∨ zes.zesDriverGetCount.1 ≠ ZE_RESULT_SUCCESS ∨
      zes.zesDriverGetCount.2 = 0 ∨
      (zes.zesDriverGet zes.zesDriverGetCount.2).1 ≠ ZE_RESULT_SUCCESS) :
    (∀ m : GPUPowerMonitor, initializeDevices zes m = (false, m)) ∧
    (initializeDevices zes GPUPowerMonitor.new).2.devices = [] ∧
    (initializeMonitor zes GPUPowerMonitor.new).1 = false ∧
    (initializeMonitor zes GPUPowerMonitor.new).2.devices = [] := by
  have h0 : GPUPowerMonitor.new.initialized = false := rfl
  refine ⟨fun m => initializeDevices_of_fatal zes m h, ?_, ?_, ?_⟩
  · rw [initializeDevices_of_fatal zes _ h]
    rfl
  · rw [initializeMonitor_of_not_initialized zes _ h0, initializeDevices_of_fatal zes _ h]
  · rw [initializeMonitor_of_not_initialized zes _ h0, initializeDevices_of_fatal zes _ h]
    rfl

theorem discovery_fatal_failures_witness :
    (initializeDevices scenarioInitFails GPUPowerMonitor.new).2.devices = [] ∧
    (initializeMonitor scenarioInitFails GPUPowerMonitor.new).1 = false :=
  have h := discovery_fatal_failures scenarioInitFails (Or.inl (by decide))
  ⟨h.2.1, h.2.2.1⟩

/-- C13: once a call to `initialize()` has returned true, a further call, also after
any sampling pass, returns true and leaves the monitor (devices, every stored
sample, flag) as it was, whatever the interface would answer: no query is made. -/
theorem initialize_idempotent_after_success (zes1 zes2 : Sysman) (m : GPUPowerMonitor)
    (h : (initializeMonitor zes1 m).1 = true) :
    initializeMonitor zes2 (initializeMonitor zes1 m).2 = (true, (initializeMonitor zes1 m).2) ∧
    (∀ read : zes_pwr_handle_t → ze_result_t × zes_power_energy_counter_t,
      initializeMonitor zes2 (getPowerReadings read (initializeMonitor zes1 m).2).2
        = (true, (getPowerReadings read (initializeMonitor zes1 m).2).2)) ∧
    (initializeMonitor zes1 m).2.initialized = true ∧
    (∀ m1 : GPUPowerMonitor, m1.initialized = true →
      initializeMonitor zes2 m1 = (true, m1) ∧
      ∀ read : zes_pwr_handle_t → ze_result_t × zes_power_energy_counter_t,
        (getPowerReadings read m1).2.initialized = true) := by
  have hi : (initializeMonitor zes1 m).2.initialized = true := by
    rw [initializeMonitor_flag, h]
  refine ⟨initializeMonitor_of_initialized zes2 _ hi, fun read => ?_, hi, fun m1 h1 => ?_⟩
  · apply initializeMonitor_of_initialized
    rw [getPowerReadings_initialized, hi]
  · refine ⟨initializeMonitor_of_initialized zes2 m1 h1, fun read => ?_⟩
    rw [getPowerReadings_initialized, h1]

theorem initialize_idempotent_after_success_witness :
    initializeMonitor scenarioInitFails
        (initializeMonitor scenarioMiddleFails GPUPowerMonitor.new).2
      = (true, (initializeMonitor scenarioMiddleFails GPUPowerMonitor.new).2) :=
  (initialize_idempotent_after_success scenarioMiddleFails scenarioInitFails
    GPUPowerMonitor.new (by decide)).1

/-- C14 (counterexample): a first `initialize()` fails because subsystem
initialisation fails; a second call on the same monitor, the interface now
succeeding, runs discovery and returns true with two devices. -/
theorem initialize_retries_after_failure :
    (initializeMonitor scenarioInitFails GPUPowerMonitor.new).1 = false ∧
    (initializeMonitor scenarioMiddleFails
      (initializeMonitor scenarioInitFails GPUPowerMonitor.new).2).1 = true ∧
    ((initializeMonitor scenarioMiddleFails
      (initializeMonitor scenarioInitFails GPUPowerMonitor.new).2).2.devices.map
        DeviceData.device) = [10, 12] := by
  decide

/-- C14 (amended): after a call to `initialize()` has returned false the flag is
still false and a later call runs discovery again and returns its result; on a
monitor that has only failed so far the later call is the first call on a fresh
monitor over again. -/
theorem initialize_after_failure (zes1 zes2 : Sysman) (m : GPUPowerMonitor)
    (h : (initializeMonitor zes1 m).1 = false) :
    (initializeMonitor zes1 m).2.initialized = false ∧
    initializeMonitor zes2 (initializeMonitor zes1 m).2
      = ((initializeDevices zes2 (initializeMonitor zes1 m).2).1,
          { (initializeDevices zes2 (initializeMonitor zes1 m).2).2 with
            initialized := (initializeDevices zes2 (initializeMonitor zes1 m).2).1 }) ∧
    (m = GPUPowerMonitor.new →
      initializeMonitor zes2 (initializeMonitor zes1 m).2
        = initializeMonitor zes2 GPUPowerMonitor.new) := by
  have hi : (initializeMonitor zes1 m).2.initialized = false := by
    rw [initializeMonitor_flag, h]
  refine ⟨hi, initializeMonitor_of_not_initialized zes2 _ hi, ?_⟩
  intro hm
  subst hm
  rw [initializeMonitor_new_of_false zes1 h]

theorem initialize_after_failure_witness :
    initializeMonitor scenarioMiddleFails
        (initializeMonitor scenarioInitFails GPUPowerMonitor.new).2
      = initializeMonitor scenarioMiddleFails GPUPowerMonitor.new :=
  (initialize_after_failure scenarioInitFails scenarioMiddleFails GPUPowerMonitor.new
    (by decide)).2.2 rfl

/-! ## Shape of the readings -/

theorem routePower_names (domain : PowerDomainData) (p : ℚ) (data : GPUPowerData) :
    (routePower domain p data).gpu_name = data.gpu_name ∧
    (routePower domain p data).uuid = data.uuid := by
  unfold routePower
  split_ifs <;> exact ⟨rfl, rfl⟩

theorem sampleDomain_names (r : ze_result_t × zes_power_energy_counter_t)
    (domain : PowerDomainData) (data : GPUPowerData) :
    (sampleDomain r domain data).2.gpu_name = data.gpu_name ∧
    (sampleDomain r domain data).2.uuid = data.uuid := by
  rcases sampleDomain_snd r domain data with h | ⟨p, -, -, -, h⟩
  · rw [h]
    exact ⟨rfl, rfl⟩
  · rw [h]
    exact routePower_names domain p data

theorem sampleDomains_names (read : zes_pwr_handle_t → ze_result_t × zes_power_energy_counter_t)
    (ds : List PowerDomainData) (data : GPUPowerData) :
    (sampleDomains read ds data).2.gpu_name = data.gpu_name ∧
    (sampleDomains read ds data).2.uuid = data.uuid := by
  induction ds generalizing data with
  | nil => exact ⟨rfl, rfl⟩
  | cons d ds ih =>
    simp only [sampleDomains]
    have h1 := ih (sampleDomain (read d.handle) d data).2
    have h2 := sampleDomain_names (read d.handle) d data
    exact ⟨h1.1.trans h2.1, h1.2.trans h2.2⟩

theorem sampleDevice_names (read : zes_pwr_handle_t → ze_result_t × zes_power_energy_counter_t)
    (device : DeviceData) :
    ((sampleDevice read device).2.gpu_name, (sampleDevice read device).2.uuid)
      = (device.name, device.uuid) := by
  have h := sampleDomains_names read device.powerDomains (initialData device)
  unfold sampleDevice
  simp only [h.1, h.2]
  rfl

/-- C15: `getPowerReadings` returns the empty sequence while the flag is false, which
is the case on a fresh monitor and after every `initialize()` that returned
false; once the flag is true it returns one reading per tracked device, in
order, carrying the name and uuid of its device, whatever the reads answer. The
flag equals the value the last `initialize()` returned and is not changed by a
pass. -/
theorem getPowerReadings_shape
    (read : zes_pwr_handle_t → ze_result_t × zes_power_energy_counter_t)
    (m : GPUPowerMonitor) :
    (m.initialized = false → (getPowerReadings read m).1 = []) ∧
    (m.initialized = true →
      (getPowerReadings read m).1.length = m.devices.length ∧
      (getPowerReadings read m).1.map (fun r => (r.gpu_name, r.uuid))
        = m.devices.map (fun d => (d.name, d.uuid))) ∧
    GPUPowerMonitor.new.initialized = false ∧
    (∀ zes : Sysman, (initializeMonitor zes m).2.initialized = (initializeMonitor zes m).1) ∧
    (getPowerReadings read m).2.initialized = m.initialized := by
  refine ⟨?_, ?_, rfl, fun zes => initializeMonitor_flag zes m,
    getPowerReadings_initialized read m⟩
  · intro h
    simp [getPowerReadings, h]
  · intro h
    rw [getPowerReadings_readings read m h]
    refine ⟨List.length_map _ _, ?_⟩
    rw [List.map_map]
    apply List.map_congr_left
    intro d _
    exact sampleDevice_names read d

theorem getPowerReadings_shape_witness :
    (getPowerReadings exampleRead GPUPowerMonitor.new).1 = [] ∧
    (getPowerReadings exampleRead exampleMonitor).1.length = exampleMonitor.devices.length ∧
    (getPowerReadings exampleRead exampleMonitor).1.map (fun r => (r.gpu_name, r.uuid))
      = exampleMonitor.devices.map (fun d => (d.name, d.uuid)) :=
  ⟨(getPowerReadings_shape exampleRead GPUPowerMonitor.new).1 rfl,
   (getPowerReadings_shape exampleRead exampleMonitor).2.1 rfl⟩

/-! ## The wraparound correction against the modular distance -/

theorem sub64_add64_max_succ (cur last : Nat) (hlt : cur < last) (hl : last < UINT64_SIZE) :
    ((sub64 (add64 cur UINT64_MAX) last : Nat) : Int) + 1
      = ((cur : Int) - (last : Int)) % 2 ^ 64 := by
  unfold sub64 add64 UINT64_MAX
  unfold UINT64_SIZE at *
  norm_num at *
  omega

/-- C18: when the fresh counter value is smaller than the stored one, the delta the
code computes is one less than the modular distance `(current - previous) mod
2 ^ 64`, for timestamp and for energy; with stored timestamp `2 ^ 64 - 1` and fresh
timestamp 0 the computed `deltaTime` is 0 and no power value is emitted. -/
theorem wraparound_delta_one_short (last cur : zes_power_energy_counter_t)
    (hl : last.valid) :
    (cur.timestamp < last.timestamp →
      ((deltaTime last cur : Nat) : Int) + 1
        = ((cur.timestamp : Int) - (last.timestamp : Int)) % 2 ^ 64) ∧
    (cur.energy < last.energy →
      ((deltaEnergy last cur : Nat) : Int) + 1
        = ((cur.energy : Int) - (last.energy : Int)) % 2 ^ 64) ∧
    (last.timestamp = UINT64_MAX → cur.timestamp = 0 →
      deltaTime last cur = 0 ∧ emittedPower last cur = none) := by
  refine ⟨?_, ?_, ?_⟩
  · intro h
    unfold deltaTime wrapAdjust
    simp only [h, if_true]
    exact sub64_add64_max_succ _ _ h hl.2
  · intro h
    unfold deltaEnergy wrapAdjust
    simp only [h, if_true]
    exact sub64_add64_max_succ _ _ h hl.1
  · intro h1 h0
    have hlt : cur.timestamp < last.timestamp := by
      rw [h1, h0]
      decide
    have hd : deltaTime last cur = 0 := by
      unfold deltaTime wrapAdjust
      simp only [hlt, if_true]
      rw [h1, h0]
      decide
    exact ⟨hd, (emittedPower_eq_none_iff _ _).2 hd⟩

theorem wraparound_delta_one_short_witness :
    deltaTime ⟨500, UINT64_MAX⟩ ⟨700, 0⟩ = 0 ∧ emittedPower ⟨500, UINT64_MAX⟩ ⟨700, 0⟩ = none :=
  (wraparound_delta_one_short ⟨500, UINT64_MAX⟩ ⟨700, 0⟩ (by decide)).2.2 rfl rfl

/-! ## Sentinel or measurement -/

theorem routePower_get (domain : PowerDomainData) (p : ℚ) (data : GPUPowerData)
    (f : PowerField) :
    (routePower domain p data).get f = if routeOf domain = some f then p else data.get f := by
  unfold routePower routeOf
  cases f <;> split_ifs <;> simp_all [GPUPowerData.get]

theorem sampleDomain_get (r : ze_result_t × zes_power_energy_counter_t)
    (domain : PowerDomainData) (data : GPUPowerData) (f : PowerField) :
    (sampleDomain r domain data).2.get f = data.get f ∨
      (0 ≤ (sampleDomain r domain data).2.get f ∧ routeOf domain = some f ∧
        r.1 = ZE_RESULT_SUCCESS ∧ deltaTime domain.lastCounter r.2 ≠ 0) := by
  rcases sampleDomain_snd r domain data with h | ⟨p, hp, hr, he, h⟩
  · left
    rw [h]
  · rw [h, routePower_get]
    by_cases hf : routeOf domain = some f
    · right
      rw [if_pos hf]
      refine ⟨hp, hf, hr, ?_⟩
      intro h0
      rw [(emittedPower_eq_none_iff _ _).2 h0] at he
      cases he
    · left
      rw [if_neg hf]

theorem sampleDomains_get (read : zes_pwr_handle_t → ze_result_t × zes_power_energy_counter_t)
    (ds : List PowerDomainData) (data : GPUPowerData) (f : PowerField) :
    (sampleDomains read ds data).2.get f = data.get f ∨
      (0 ≤ (sampleDomains read ds data).2.get f ∧
        ∃ d ∈ ds, routeOf d = some f ∧ (read d.handle).1 = ZE_RESULT_SUCCESS ∧
          deltaTime d.lastCounter (read d.handle).2 ≠ 0) := by
  induction ds generalizing data with
  | nil => left; rfl
  | cons d ds ih =>
    simp only [sampleDomains]
    rcases ih (sampleDomain (read d.handle) d data).2 with h | ⟨h0, x, hx, hrest⟩
    · rcases sampleDomain_get (read d.handle) d data f with h1 | ⟨h1, h2⟩
      · left
        rw [h, h1]
      · right
        rw [h]
        exact ⟨h1, d, List.mem_cons_self _ _, h2⟩
    · right
      exact ⟨h0, x, List.mem_cons_of_mem _ hx, hrest⟩

/-- C20: every power field of every reading returned by `getPowerReadings` is either
-1 or non-negative, and when it is not -1 some domain of the device at that
position, routed to that field, had a successful read with non-zero computed
`deltaTime` in this pass. -/
theorem sentinel_or_measured
    (read : zes_pwr_handle_t → ze_result_t × zes_power_energy_counter_t)
    (m : GPUPowerMonitor) (i : Nat) (reading : GPUPowerData)
    (h : (getPowerReadings read m).1[i]? = some reading) :
    ∃ device : DeviceData, m.devices[i]? = some device ∧
      ∀ f : PowerField,
        reading.get f = -1 ∨
          (0 ≤ reading.get f ∧
            ∃ d ∈ device.powerDomains, routeOf d = some f ∧
              (read d.handle).1 = ZE_RESULT_SUCCESS ∧
              deltaTime d.lastCounter (read d.handle).2 ≠ 0) := by
  cases hinit : m.initialized with
  | false =>
    simp [getPowerReadings, hinit] at h
  | true =>
    rw [getPowerReadings_readings read m hinit, List.getElem?_map] at h
    cases hd : m.devices[i]? with
    | none => rw [hd] at h; cases h
    | some device =>
      rw [hd] at h
      simp only [Option.map_some', Option.some.injEq] at h
      subst h
      refine ⟨device, rfl, fun f => ?_⟩
      have hg := sampleDomains_get read device.powerDomains (initialData device) f
      have hi : (initialData device).get f = -1 := by cases f <;> rfl
      rw [hi] at hg
      exact hg

theorem sentinel_or_measured_witness :
    ∃ device : DeviceData, exampleMonitor.devices[1]? = some device ∧
      ∀ f : PowerField,
        (sampleDevice exampleRead ⟨11, "gpu", "", [tileDomain]⟩).2.get f = -1 ∨
          (0 ≤ (sampleDevice exampleRead ⟨11, "gpu", "", [tileDomain]⟩).2.get f ∧
            ∃ d ∈ device.powerDomains, routeOf d = some f ∧
              (exampleRead d.handle).1 = ZE_RESULT_SUCCESS ∧
              deltaTime d.lastCounter (exampleRead d.handle).2 ≠ 0) :=
  sentinel_or_measured exampleRead exampleMonitor 1
    (sampleDevice exampleRead ⟨11, "gpu", "", [tileDomain]⟩).2 rfl

/-! ## Rendering of the uuid -/

set_option maxRecDepth 100000 in
theorem hex02_eq_octetHex (b : Nat) (h : b < 256) : hex02 b = octetHex b := by
  revert b
  decide

set_option maxRecDepth 100000 in
theorem octetHex_digits (b : Nat) (h : b < 256) :
    (octetHex b).length = 2 ∧ ∀ c ∈ (octetHex b).toList, c ∈ "0123456789abcdef".toList := by
  revert b
  decide

theorem hex02_length (b : Nat) : (hex02 b).length = 2 := rfl

theorem formatUuid_sixteen (a0 a1 a2 a3 a4 a5 a6 a7 a8 a9 a10 a11 a12 a13 a14 a15 : Nat) :
    formatUuid [a0, a1, a2, a3, a4, a5, a6, a7, a8, a9, a10, a11, a12, a13, a14, a15] = ":".intercalate ([a0, a1, a2, a3, a4, a5, a6, a7, a8, a9, a10, a11, a12, a13, a14, a15].map hex02) := by
  simp [formatUuid, ZE_MAX_UUID_SIZE, List.range, List.range.loop, String.intercalate,
    String.intercalate.go]

/-- C16: the uuid string built from 16 bytes is the 16 octets in source order, each
as two lowercase hexadecimal digits, joined by colons with none leading or
trailing; its length is 47. -/
theorem uuid_rendering (id : List Nat) (hlen : id.length = 16) (hb : ∀ b ∈ id, b < 256) :
    formatUuid id = renderUuid id ∧ (formatUuid id).length = 47 ∧
    ∀ b ∈ id, (octetHex b).length = 2 ∧
      ∀ c ∈ (octetHex b).toList, c ∈ "0123456789abcdef".toList := by
  refine ⟨?_, ?_, fun b hmem => octetHex_digits b (hb b hmem)⟩
  · rcases id with _ | ⟨a0, _ | ⟨a1, _ | ⟨a2, _ | ⟨a3, _ | ⟨a4, _ | ⟨a5, _ | ⟨a6, _ | ⟨a7, _ | ⟨a8, _ | ⟨a9, _ | ⟨a10, _ | ⟨a11, _ | ⟨a12, _ | ⟨a13, _ | ⟨a14, _ | ⟨a15, _ | ⟨_, _⟩⟩⟩⟩⟩⟩⟩⟩⟩⟩⟩⟩⟩⟩⟩⟩⟩ <;> simp at hlen
    rw [formatUuid_sixteen]
    have hm : [a0, a1, a2, a3, a4, a5, a6, a7, a8, a9, a10, a11, a12, a13, a14, a15].map hex02 = [a0, a1, a2, a3, a4, a5, a6, a7, a8, a9, a10, a11, a12, a13, a14, a15].map octetHex :=
      List.map_congr_left (fun b hmem => hex02_eq_octetHex b (hb b hmem))
    rw [hm]
    rfl
  · rcases id with _ | ⟨a0, _ | ⟨a1, _ | ⟨a2, _ | ⟨a3, _ | ⟨a4, _ | ⟨a5, _ | ⟨a6, _ | ⟨a7, _ | ⟨a8, _ | ⟨a9, _ | ⟨a10, _ | ⟨a11, _ | ⟨a12, _ | ⟨a13, _ | ⟨a14, _ | ⟨a15, _ | ⟨_, _⟩⟩⟩⟩⟩⟩⟩⟩⟩⟩⟩⟩⟩⟩⟩⟩⟩ <;> simp at hlen
    rw [formatUuid_sixteen]
    have hc : ":".length = 1 := rfl
    simp [String.intercalate, String.intercalate.go, String.length_append, hex02_length, hc]

theorem uuid_rendering_witness :
    formatUuid [0, 1, 2, 3, 4, 5, 6, 7, 8, 9, 10, 11, 12, 13, 14, 15]
      = "00:01:02:03:04:05:06:07:08:09:0a:0b:0c:0d:0e:0f" ∧
    (formatUuid [0, 1, 2, 3, 4, 5, 6, 7, 8, 9, 10, 11, 12, 13, 14, 15]).length = 47 :=
  have h := uuid_rendering [0, 1, 2, 3, 4, 5, 6, 7, 8, 9, 10, 11, 12, 13, 14, 15]
    (by decide) (by decide)
  ⟨h.1.trans (by decide), h.2.1⟩

/-! ## Kinds of the domains of a discovered device -/

theorem filterMap_initDomain_kinds (zes : Sysman) (powerHandles : List zes_pwr_handle_t) :
    ((powerHandles.filterMap (initDomain zes)).filter (fun d => d.isCardLevel)).length
      = (powerHandles.filter (fun p =>
          domainUsable zes p && !(zes.zesPowerGetProperties p).2.onSubdevice)).length ∧
    ((powerHandles.filterMap (initDomain zes)).filter (fun d => !d.isCardLevel)).map
        PowerDomainData.subdeviceId
      = (powerHandles.filter (fun p =>
          domainUsable zes p && (zes.zesPowerGetProperties p).2.onSubdevice)).map
            (fun p => toInt32 (zes.zesPowerGetProperties p).2.subdeviceId) := by
  induction powerHandles with
  | nil => exact ⟨rfl, rfl⟩
  | cons x xs ih =>
    have hs := initDomain_isSome zes x
    cases hx : initDomain zes x with
    | none =>
      rw [hx] at hs
      have hr : domainUsable zes x = false := hs.symm
      simp [List.filterMap_cons, hx, List.filter_cons, hr, ih.1, ih.2]
    | some d =>
      rw [hx] at hs
      have hr : domainUsable zes x = true := hs.symm
      obtain ⟨-, h2, h3, -⟩ := initDomain_eq_some zes x d hx
      cases ho : (zes.zesPowerGetProperties x).2.onSubdevice with
      | true =>
        rw [ho] at h2
        simp [List.filterMap_cons, hx, List.filter_cons, hr, ih.1, ih.2, h2, h3, ho]
      | false =>
        rw [ho] at h2
        simp [List.filterMap_cons, hx, List.filter_cons, hr, ih.1, ih.2, h2, ho]

/-- C17 (counterexample): when the interface reports every power domain on
subdevice 0, each discovered device has no card-level domain and two tile
domains with the same `subdeviceId`. -/
theorem discovered_domain_kinds_unconstrained :
    (¬ ∀ device ∈ (initializeDevices scenarioAllTiles GPUPowerMonitor.new).2.devices,
        cardCount device = 1 ∧ (tileIds device).Nodup) ∧
    ((initializeDevices scenarioAllTiles GPUPowerMonitor.new).2.devices.map
        (fun device => (cardCount device, tileIds device)))
      = [(0, [0, 0]), (0, [0, 0])] := by
  decide

/-- C17 (amended): the number of card-level domains of a discovered device is the
number of its enumerated power-domain handles that passed both reads and that
the interface reports as not on a subdevice, and the `subdeviceId`s of its tile
domains are, in enumeration order, those the interface reports (converted to
`int`) for the handles that passed both reads and are on a subdevice. -/
theorem discovered_domain_kinds (zes : Sysman) (device : DeviceData)
    (h : device ∈ (initializeDevices zes GPUPowerMonitor.new).2.devices) :
    cardCount device
      = ((powerHandlesOf zes device.device).filter (fun p =>
          domainUsable zes p && !(zes.zesPowerGetProperties p).2.onSubdevice)).length ∧
    tileIds device
      = ((powerHandlesOf zes device.device).filter (fun p =>
          domainUsable zes p && (zes.zesPowerGetProperties p).2.onSubdevice)).map
            (fun p => toInt32 (zes.zesPowerGetProperties p).2.subdeviceId) := by
  have hd := (initDevice_eq_some zes device.device device (mem_discovered zes device h)).2.2.2.1
  rw [initDomains_eq_filterMap] at hd
  unfold cardCount tileIds
  rw [hd]
  exact filterMap_initDomain_kinds zes _

theorem discovered_domain_kinds_witness :
    cardCount exampleDevice10 = 1 ∧ tileIds exampleDevice10 = [0] :=
  have h := discovered_domain_kinds scenarioMiddleFails exampleDevice10 (by decide)
  ⟨h.1.trans (by decide), h.2.trans (by decide)⟩

/-! ## The console against the embeddable API -/

theorem console_initDomains_eq (zes : Sysman) (powerHandles : List zes_pwr_handle_t)
    (powerDomains : List PowerDomainData) :
    Console.initDomains zes powerHandles powerDomains
      = powerDomains ++ powerHandles.filterMap (initDomain zes) := by
  induction powerHandles generalizing powerDomains with
  | nil => simp [Console.initDomains]
  | cons x xs ih =>
    unfold Console.initDomains
    simp only [List.filterMap_cons]
    by_cases h1 : (zes.zesPowerGetProperties x).1 = ZE_RESULT_SUCCESS
    · by_cases h2 : (zes.zesPowerGetEnergyCounter x).1 = ZE_RESULT_SUCCESS
      · simp [initDomain, h1, h2, ih]
      · simp [initDomain, h1, h2, ih]
    · simp [initDomain, h1, ih]

theorem console_initDeviceHandles_eq (zes : Sysman) (deviceHandles : List zes_device_handle_t)
    (devices : List DeviceData) :
    Console.initDeviceHandles zes deviceHandles devices
      = devices ++ deviceHandles.filterMap (initDevice zes) := by
  induction deviceHandles generalizing devices with
  | nil => simp [Console.initDeviceHandles]
  | cons x xs ih =>
    unfold Console.initDeviceHandles
    simp only [List.filterMap_cons]
    by_cases h1 : (zes.zesDeviceGetProperties x).1 = ZE_RESULT_SUCCESS
    · by_cases h2 : (zes.zesDeviceEnumPowerDomainsCount x).1 = ZE_RESULT_SUCCESS
      · by_cases h3 : (zes.zesDeviceEnumPowerDomainsCount x).2 = 0
        · simp [initDevice, h1, h2, h3, ih]
        · by_cases h4 : (zes.zesDeviceEnumPowerDomains x
              (zes.zesDeviceEnumPowerDomainsCount x).2).1 = ZE_RESULT_SUCCESS
          · simp [initDevice, h1, h2, h3, h4, ih, console_initDomains_eq,
              initDomains_eq_filterMap]
          · simp [initDevice, h1, h2, h3, h4, ih]
      · simp [initDevice, h1, h2, ih]
    · simp [initDevice, h1, ih]

theorem console_initDrivers_eq (zes : Sysman) (drivers : List zes_driver_handle_t)
    (devices : List DeviceData) :
    Console.initDrivers zes drivers devices
      = drivers.foldl (fun devs driver => initDriver zes driver devs) devices := by
  induction drivers generalizing devices with
  | nil => simp [Console.initDrivers]
  | cons x xs ih =>
    unfold Console.initDrivers
    simp only [List.foldl_cons]
    by_cases h1 : (zes.zesDeviceGetCount x).1 = ZE_RESULT_SUCCESS
    · by_cases h2 : (zes.zesDeviceGetCount x).2 = 0
      · simp [initDriver, h1, h2, ih]
      · by_cases h3 : (zes.zesDeviceGet x (zes.zesDeviceGetCount x).2).1 = ZE_RESULT_SUCCESS
        · simp [initDriver, h1, h2, h3, ih, console_initDeviceHandles_eq,
            initDeviceHandles_eq]
        · simp [initDriver, h1, h2, h3, ih]
    · simp [initDriver, h1, ih]

theorem console_initializeDevices_eq (zes : Sysman) :
    Console.initializeDevices zes = (initializeDevices zes GPUPowerMonitor.new).2.devices := by
  unfold Console.initializeDevices initializeDevices
  by_cases h1 : zes.zesInit = ZE_RESULT_SUCCESS
  · by_cases h2 : zes.zesDriverGetCount.1 = ZE_RESULT_SUCCESS
    · by_cases h3 : zes.zesDriverGetCount.2 = 0
      · simp [h1, h2, h3, GPUPowerMonitor.new]
      · by_cases h4 : (zes.zesDriverGet zes.zesDriverGetCount.2).1 = ZE_RESULT_SUCCESS
        · simp [h1, h2, h3, h4, GPUPowerMonitor.new, console_initDrivers_eq]
        · simp [h1, h2, h3, h4, GPUPowerMonitor.new]
    · simp [h1, h2, GPUPowerMonitor.new]
  · simp [h1, GPUPowerMonitor.new]

theorem console_currentCounter_eq (last cur : zes_power_energy_counter_t) :
    Console.currentCounter last cur = wrapAdjust last cur := rfl

theorem initializeMonitor_new_true_iff (zes : Sysman) :
    (initializeMonitor zes GPUPowerMonitor.new).1 = true ↔
      (initializeDevices zes GPUPowerMonitor.new).2.devices ≠ [] := by
  have hf := initializeDevices_fst zes GPUPowerMonitor.new rfl
  have hm : (initializeMonitor zes GPUPowerMonitor.new).1
      = (initializeDevices zes GPUPowerMonitor.new).1 := rfl
  rw [hm, hf, initializeDevices_devices]
  simp [GPUPowerMonitor.new]

/-- C19: the console's `initializeDevices` returns the device list the monitor's
`initializeDevices` builds on a fresh monitor, and `initialize()` returns true
exactly when that list is non-empty; one domain step of `monitorPower` computes
the same `deltaTime`, `deltaEnergy` and `power` as one domain step of
`getPowerReadings`, prints exactly when the latter has a power value, with that
value, and stores the same `lastCounter`. -/
theorem console_refines_monitor (zes : Sysman)
    (r : ze_result_t × zes_power_energy_counter_t) (domain : PowerDomainData)
    (data : GPUPowerData) :
    Console.initializeDevices zes = (initializeDevices zes GPUPowerMonitor.new).2.devices ∧
    ((initializeMonitor zes GPUPowerMonitor.new).1 = true ↔
      Console.initializeDevices zes ≠ []) ∧
    Console.deltaTime domain.lastCounter r.2 = deltaTime domain.lastCounter r.2 ∧
    Console.deltaEnergy domain.lastCounter r.2 = deltaEnergy domain.lastCounter r.2 ∧
    Console.power domain.lastCounter r.2 = power domain.lastCounter r.2 ∧
    (Console.monitorDomain r domain).2.map Console.PowerLine.power
      = (if r.1 = ZE_RESULT_SUCCESS then emittedPower domain.lastCounter r.2 else none) ∧
    (Console.monitorDomain r domain).1 = (sampleDomain r domain data).1 := by
  refine ⟨console_initializeDevices_eq zes, ?_, rfl, rfl, rfl, ?_, ?_⟩
  · rw [console_initializeDevices_eq]
    exact initializeMonitor_new_true_iff zes
  · unfold Console.monitorDomain emittedPower
    have hdt : Console.deltaTime domain.lastCounter r.2 = deltaTime domain.lastCounter r.2 := rfl
    have hp : Console.power domain.lastCounter r.2 = power domain.lastCounter r.2 := rfl
    by_cases hr : r.1 = ZE_RESULT_SUCCESS
    · by_cases hd : deltaTime domain.lastCounter r.2 > 0
      · simp [hr, hdt, hp, hd]
      · simp [hr, hdt, hd]
    · simp [hr]
  · rw [sampleDomain_fst]
    unfold Console.monitorDomain
    by_cases hr : r.1 = ZE_RESULT_SUCCESS
    · simp [hr, console_currentCounter_eq]
    · simp [hr]

end GpuPower
